import Mathlib

/-!
# Verification of the FAT32 emulator core (fat32.c, disc_io.c)

A shallow embedding of the FAT32 on-disk engine.  The disk image is a byte
map `Nat → Nat`; a separate flag map records which seek positions fail to
read (modelling a failing `fread`), which is how `fat32_read_sector`'s error
path is represented.  `fwrite` failures are not modelled: every write
succeeds, so the only failure sources are failing reads and the explicit
guard checks of the C code.  All machine arithmetic that C performs on
`uint32_t` is done on `Nat` with an explicit `% 2^32` (`w32`); bytes taken
from the image are masked with `% 256` at the read boundary, matching the
`uint8_t` buffers of the source.  Bit operations of the source on clean
power-of-two masks are rendered arithmetically: `x & 0x0FFFFFFF` is
`x % 2^28`, `x & 0xF0000000` is `x / 2^28 * 2^28`, and `|` of the two
disjoint parts is `+`.
-/

/-- `uint32_t` wrap-around. -/
def w32 (n : Nat) : Nat := n % 4294967296

/-- `uint32_t` subtraction `a - b` (wrapping). -/
def sub32 (a b : Nat) : Nat := (a + 4294967296 - b % 4294967296) % 4294967296

/-- The disk image.  `byte o` is the byte at absolute offset `o`; `bad o`
says that an `fread` of a sector whose seek position is `o` fails. -/
structure Disk where
  bad : Nat → Bool
  byte : Nat → Nat

/-- C: `Fat32Context` (fat32.h).  The `FILE*` handle and the image path are
not part of the model; geometry cache and session cursor are. -/
structure Fat32Context where
  fat_start : Nat
  data_start : Nat
  fat_size : Nat
  total_clusters : Nat
  current_path : List Nat
  current_cluster : Nat

/-- The 512-byte view of sector `s` as the C code sees it after a successful
`fread` into a `uint8_t` buffer.  The seek position is `sector * SECTOR_SIZE`
computed in `uint32_t`. -/
def sectorView (d : Disk) (s : Nat) : Nat → Nat :=
  fun i => d.byte (w32 (s * 512) + i) % 256

/-- C: `fat32_read_sector` (disc_io.c).  Fails iff the seek position is
marked bad. -/
def fat32_read_sector (d : Disk) (s : Nat) : Option (Nat → Nat) :=
  if d.bad (w32 (s * 512)) then none else some (sectorView d s)

/-- C: `fat32_write_sector` (disc_io.c).  Writes 512 bytes at seek position
`w32 (s * 512)` and makes that position readable.  Writes always succeed in
the model. -/
def fat32_write_sector (d : Disk) (s : Nat) (buf : Nat → Nat) : Disk :=
  { bad := fun o => if o = w32 (s * 512) then false else d.bad o
    byte := fun o =>
      if w32 (s * 512) ≤ o ∧ o < w32 (s * 512) + 512 then buf (o - w32 (s * 512)) % 256
      else d.byte o }

/-- Little-endian 16-bit load from a byte buffer. -/
def u16le (b : Nat → Nat) (o : Nat) : Nat := b o % 256 + 256 * (b (o + 1) % 256)

/-- Little-endian 32-bit load from a byte buffer (C: `*(uint32_t*)(p)`). -/
def u32le (b : Nat → Nat) (o : Nat) : Nat :=
  b o % 256 + 256 * (b (o + 1) % 256) + 65536 * (b (o + 2) % 256) +
    16777216 * (b (o + 3) % 256)

/-- Little-endian 32-bit store into a byte buffer (C: `*(uint32_t*)(p) = v`). -/
def setU32le (b : Nat → Nat) (o v : Nat) : Nat → Nat := fun i =>
  if i = o then v % 256
  else if i = o + 1 then v / 256 % 256
  else if i = o + 2 then v / 65536 % 256
  else if i = o + 3 then v / 16777216 % 256
  else b i

/-- First sector holding cluster `c` (C: `ctx->data_start + (cluster - 2) *
(CLUSTER_SIZE / SECTOR_SIZE)` in `fat32_read_cluster` / `fat32_write_cluster`). -/
def clusterSector (ctx : Fat32Context) (c : Nat) : Nat :=
  w32 (ctx.data_start + w32 ((c - 2) * 8))

/-- The 4096-byte view of cluster `c` as assembled by `fat32_read_cluster`
from its 8 sector reads. -/
def clusterView (ctx : Fat32Context) (d : Disk) (c : Nat) : Nat → Nat :=
  fun j => d.byte (w32 (w32 (clusterSector ctx c + j / 512) * 512) + j % 512) % 256

/-- All 8 sector reads of `fat32_read_cluster` succeed (and `c ≥ 2`). -/
def readClusterOk (ctx : Fat32Context) (d : Disk) (c : Nat) : Bool :=
  decide (2 ≤ c) &&
    (List.range 8).all (fun i => !(d.bad (w32 (w32 (clusterSector ctx c + i) * 512))))

/-- C: `fat32_read_cluster` (disc_io.c). -/
def fat32_read_cluster (ctx : Fat32Context) (d : Disk) (c : Nat) :
    Option (Nat → Nat) :=
  if readClusterOk ctx d c then some (clusterView ctx d c) else none

/-- The ascending sector-write loop of `fat32_write_cluster`: writes sectors
`s0 + i, …, s0 + i + n - 1` from consecutive 512-byte slices of `buf`. -/
def writeSectorsUp (s0 : Nat) (buf : Nat → Nat) : Nat → Nat → Disk → Disk
  | _, 0, d => d
  | i, n + 1, d =>
      writeSectorsUp s0 buf (i + 1) n
        (fat32_write_sector d (w32 (s0 + i)) (fun k => buf (i * 512 + k)))

/-- C: `fat32_write_cluster` (disc_io.c). -/
def fat32_write_cluster (ctx : Fat32Context) (d : Disk) (c : Nat)
    (buf : Nat → Nat) : Int × Disk :=
  if c < 2 then (-1, d)
  else (0, writeSectorsUp (clusterSector ctx c) buf 0 8 d)

/-- Sector holding FAT entry `c` in FAT copy `copy` (C: `ctx->fat_start +
(fat_copy * ctx->fat_size) + (cluster * 4) / SECTOR_SIZE`). -/
def fatSector (ctx : Fat32Context) (copy c : Nat) : Nat :=
  w32 (ctx.fat_start + copy * ctx.fat_size + w32 (c * 4) / 512)

/-- Byte offset of FAT entry `c` inside its sector (C: `(cluster * 4) %
SECTOR_SIZE`). -/
def fatOffset (c : Nat) : Nat := w32 (c * 4) % 512

/-- Absolute byte address of the first byte of FAT entry `c` in copy `copy`. -/
def fatEntryAddr (ctx : Fat32Context) (copy c : Nat) : Nat :=
  w32 (fatSector ctx copy c * 512) + fatOffset c

/-- The full 32-bit value stored at FAT entry `c` of copy `copy` (no mask). -/
def fatSlot (ctx : Fat32Context) (d : Disk) (copy c : Nat) : Nat :=
  u32le (fun j => d.byte (fatEntryAddr ctx copy c + j)) 0

/-- C: `fat32_get_fat_entry` (disc_io.c).  Out-of-range clusters and failed
reads both yield `0x0FFFFFFF`; otherwise the 32-bit slot masked with
`0x0FFFFFFF` (here `% 2^28`). -/
def fat32_get_fat_entry (ctx : Fat32Context) (d : Disk) (c : Nat) : Nat :=
  if ctx.total_clusters ≤ c then 268435455
  else
    match fat32_read_sector d (fatSector ctx 0 c) with
    | none => 268435455
    | some sec => u32le sec (fatOffset c) % 268435456

/-- C: `fat32_set_fat_entry` (disc_io.c), with the `FAT_COUNT = 2` loop
unrolled.  Each copy is read-modify-written: the slot keeps its top 4 bits
(`x & 0xF0000000` is `x / 2^28 * 2^28`) and receives `value & 0x0FFFFFFF`
(`v % 2^28`). -/
def fat32_set_fat_entry (ctx : Fat32Context) (d : Disk) (c v : Nat) :
    Int × Disk :=
  if ctx.total_clusters ≤ c then (-1, d)
  else
    match fat32_read_sector d (fatSector ctx 0 c) with
    | none => (-1, d)
    | some sec0 =>
        let d1 := fat32_write_sector d (fatSector ctx 0 c)
          (setU32le sec0 (fatOffset c)
            (u32le sec0 (fatOffset c) / 268435456 * 268435456 + v % 268435456))
        match fat32_read_sector d1 (fatSector ctx 1 c) with
        | none => (-1, d1)
        | some sec1 =>
            (0, fat32_write_sector d1 (fatSector ctx 1 c)
              (setU32le sec1 (fatOffset c)
                (u32le sec1 (fatOffset c) / 268435456 * 268435456 + v % 268435456)))

/-- The scan loop of `fat32_find_free_cluster`, with explicit fuel: starting
at cluster `c`, for at most `n` clusters, return the first whose FAT entry
reads 0, else 0. -/
def findFreeFrom (ctx : Fat32Context) (d : Disk) : Nat → Nat → Nat
  | _, 0 => 0
  | c, n + 1 =>
      if fat32_get_fat_entry ctx d c = 0 then c else findFreeFrom ctx d (c + 1) n

/-- C: `fat32_find_free_cluster` (disc_io.c): linear scan over clusters
`2 … total_clusters - 1`. -/
def fat32_find_free_cluster (ctx : Fat32Context) (d : Disk) : Nat :=
  findFreeFrom ctx d 2 (ctx.total_clusters - 2)

/-- Space padding of a byte list to length `n` (the `memset(buf, ' ', 11)`
background of `fat32_format_name`). -/
def spacePad (l : List Nat) (n : Nat) : List Nat :=
  l ++ List.replicate (n - l.length) 32

/-- C: `fat32_format_name` (fat32.c).  Names are the byte lists of the C
strings (no NUL).  46 is `'.'`, 32 is `' '`. -/
def fat32_format_name (name : List Nat) : List Nat :=
  if name = [46] then 46 :: List.replicate 10 32
  else if name = [46, 46] then 46 :: 46 :: List.replicate 9 32
  else
    let dIdx := name.findIdx (fun ch => ch == 46)
    if dIdx < name.length then
      spacePad ((name.take dIdx).take 8) 8 ++ spacePad ((name.drop (dIdx + 1)).take 3) 3
    else
      spacePad (name.take 11) 11

/-- The 11 name bytes of directory entry `i` of a directory cluster buffer. -/
def entryName (buf : Nat → Nat) (i : Nat) : List Nat :=
  (List.range 11).map (fun j => buf (32 * i + j))

/-- C: `fat32_get_cluster_from_entry`: `(cluster_high << 16) | cluster_low`,
fields at entry offsets 20 and 26, little-endian. -/
def entryCluster (buf : Nat → Nat) (i : Nat) : Nat :=
  u16le buf (32 * i + 20) * 65536 + u16le buf (32 * i + 26)

/-- The collision-scan loop shared by `fat32_mkdir` and `fat32_touch`:
`name[0] == 0x00` stops, `0xE5` (229) skips, an 11-byte `memcmp` match
reports a collision. -/
def nameExistsFrom (buf : Nat → Nat) (fname : List Nat) : Nat → Nat → Bool
  | _, 0 => false
  | i, n + 1 =>
      if buf (32 * i) = 0 then false
      else if buf (32 * i) = 229 then nameExistsFrom buf fname (i + 1) n
      else if entryName buf i = fname then true
      else nameExistsFrom buf fname (i + 1) n

/-- The free-slot loop of `fat32_mkdir` / `fat32_touch`: first entry whose
first name byte is `0x00` or `0xE5`. -/
def findFreeSlotFrom (buf : Nat → Nat) : Nat → Nat → Option Nat
  | _, 0 => none
  | i, n + 1 =>
      if buf (32 * i) = 0 ∨ buf (32 * i) = 229 then some i
      else findFreeSlotFrom buf (i + 1) n

/-- The directory-search loop of `fat32_cd`: live entry with the DIRECTORY
attribute bit and an 11-byte name match. -/
def findDirFrom (buf : Nat → Nat) (fname : List Nat) : Nat → Nat → Option Nat
  | _, 0 => none
  | i, n + 1 =>
      if buf (32 * i) = 0 then none
      else if buf (32 * i) = 229 then findDirFrom buf fname (i + 1) n
      else if buf (32 * i + 11) &&& 16 ≠ 0 ∧ entryName buf i = fname then some i
      else findDirFrom buf fname (i + 1) n

/-- The `".."`-search loop of `fat32_cd`. -/
def findDotDotFrom (buf : Nat → Nat) : Nat → Nat → Option Nat
  | _, 0 => none
  | i, n + 1 =>
      if buf (32 * i) = 0 then none
      else if buf (32 * i) = 229 then findDotDotFrom buf (i + 1) n
      else if entryName buf i = 46 :: 46 :: List.replicate 9 32 then some i
      else findDotDotFrom buf (i + 1) n

/-- The live-entry scan of a directory cluster: indices of the entries a
directory listing or collision scan visits (terminator `0x00` stops the
scan, deleted entries `0xE5` are skipped). -/
def liveIdx (buf : Nat → Nat) : Nat → Nat → List Nat
  | _, 0 => []
  | i, n + 1 =>
      if buf (32 * i) = 0 then []
      else if buf (32 * i) = 229 then liveIdx buf (i + 1) n
      else i :: liveIdx buf (i + 1) n

/-- Indices of the live entries of a 128-entry directory cluster. -/
def scanEntries (buf : Nat → Nat) : List Nat := liveIdx buf 0 128

/-- Writing one 32-byte directory entry into a cluster buffer: the slot is
zeroed (`memset`), then name, attribute and cluster pointer are set
(`fat32_set_cluster_to_entry` stores `(c >> 16) & 0xFFFF` and `c & 0xFFFF`
little-endian at entry offsets 20 and 26).  `file_size` stays 0. -/
def writeEntryBytes (buf : Nat → Nat) (i : Nat) (fname : List Nat)
    (attr cluster : Nat) : Nat → Nat := fun k =>
  if 32 * i ≤ k ∧ k < 32 * i + 32 then
    let j := k - 32 * i
    if j < 11 then fname.getD j 0
    else if j = 11 then attr
    else if j = 20 then cluster / 65536 % 256
    else if j = 21 then cluster / 16777216 % 256
    else if j = 26 then cluster % 256
    else if j = 27 then cluster / 256 % 256
    else 0
  else buf k

/-- A freshly composed directory cluster: zeroed, with a `"."` entry
pointing to `selfCluster` and a `".."` entry pointing to `parentCluster`,
both with `ATTR_DIRECTORY` (16).  Used by `fat32_format` (root) and
`fat32_mkdir` (child). -/
def newDirCluster (selfCluster parentCluster : Nat) : Nat → Nat :=
  writeEntryBytes
    (writeEntryBytes (fun _ => 0) 0 (46 :: List.replicate 10 32) 16 selfCluster)
    1 (46 :: 46 :: List.replicate 9 32) 16 parentCluster

/-- C: `fat32_is_valid` (fat32.c).  Reads sector 0, requires signature
`0xAA55` at offset 510 and `fs_type` starting with ASCII `"FAT32"` at
offset 82; on success caches geometry.  `total_clusters` divides
`TOTAL_SECTORS - data_start` (the compiled-in 40960, uint32 arithmetic) by
the sector's `sectors_per_cluster` (offset 13). -/
def fat32_is_valid (ctx : Fat32Context) (d : Disk) : Int × Fat32Context :=
  match fat32_read_sector d 0 with
  | none => (-1, ctx)
  | some bs =>
      if u16le bs 510 ≠ 43605 then (-1, ctx)
      else if bs 82 = 70 ∧ bs 83 = 65 ∧ bs 84 = 84 ∧ bs 85 = 51 ∧ bs 86 = 50 then
        let data_start := w32 (u16le bs 14 + w32 (bs 16 * u32le bs 36))
        (0, { ctx with
              fat_size := u32le bs 36
              fat_start := u16le bs 14
              data_start := data_start
              total_clusters := sub32 40960 data_start / bs 13 })
      else (-1, ctx)

/-- The boot sector `fat32_format` composes (fat32.c lines 89–120), as a
byte buffer at the packed `Fat32BootSector` offsets.  All multi-byte fields
little-endian; unlisted bytes are the `memset` zeros. -/
def bootSectorBytes : Nat → Nat := fun o =>
  if o = 0 then 235 else if o = 1 then 88 else if o = 2 then 144
  else if o = 3 then 77 else if o = 4 then 83 else if o = 5 then 87
  else if o = 6 then 73 else if o = 7 then 78 else if o = 8 then 52
  else if o = 9 then 46 else if o = 10 then 49
  else if o = 12 then 2
  else if o = 13 then 8
  else if o = 14 then 32
  else if o = 16 then 2
  else if o = 21 then 248
  else if o = 24 then 32
  else if o = 26 then 64
  else if o = 33 then 160
  else if o = 37 then 1
  else if o = 44 then 2
  else if o = 48 then 1
  else if o = 50 then 6
  else if o = 64 then 128
  else if o = 66 then 41
  else if o = 67 then 120 else if o = 68 then 86 else if o = 69 then 52
  else if o = 70 then 18
  else if o = 71 then 78 else if o = 72 then 79 else if o = 73 then 32
  else if o = 74 then 78 else if o = 75 then 65 else if o = 76 then 77
  else if o = 77 then 69 else if o = 78 then 32 else if o = 79 then 32
  else if o = 80 then 32 else if o = 81 then 32
  else if o = 82 then 70 else if o = 83 then 65 else if o = 84 then 84
  else if o = 85 then 51 else if o = 86 then 50 else if o = 87 then 32
  else if o = 88 then 32 else if o = 89 then 32
  else if o = 510 then 85 else if o = 511 then 170
  else 0

/-- The first FAT sector written by `fat32_format`: entry 0 is the media
sentinel `0x0FFFFFF8`, entry 1 is `0x0FFFFFFF`, the rest is zero. -/
def fatFirstSector : Nat → Nat :=
  setU32le (setU32le (fun _ => 0) 0 268435448) 4 268435455

/-- The clear loop of `fat32_format`: writes a zero sector to sectors
`base + s, …, base + s + n - 1`. -/
def zeroSectors (base : Nat) : Nat → Nat → Disk → Disk
  | _, 0, d => d
  | s, n + 1, d =>
      zeroSectors base (s + 1) n (fat32_write_sector d (w32 (base + s)) (fun _ => 0))

/-- The geometry refresh of `fat32_format` (fat32.c lines 128–131): the
fixed boot-sector fields give fat_size 256, fat_start 32, data_start
32 + 2·256 = 544, total_clusters (40960 − 544)/8 = 5052. -/
def fat32_format_ctx (ctx : Fat32Context) : Fat32Context :=
  { ctx with
    fat_size := 256
    fat_start := 32
    data_start := 32 + 2 * 256
    total_clusters := (40960 - (32 + 2 * 256)) / 8 }

/-- The sector writes of `fat32_format` before the root cluster: boot sector
at 0, the first FAT sector of each copy (`fat_start + i * fat_size`, i.e.
32 and 288), and the zeroing of the remaining `fat_size - 1` sectors of
each copy. -/
def fat32_format_disk4 (d : Disk) : Disk :=
  zeroSectors (32 + 1 * 256) 1 (256 - 1)
    (zeroSectors (32 + 0 * 256) 1 (256 - 1)
      (fat32_write_sector
        (fat32_write_sector (fat32_write_sector d 0 bootSectorBytes)
          (w32 (32 + 0 * 256)) fatFirstSector)
        (w32 (32 + 1 * 256)) fatFirstSector))

/-- C: `fat32_format` (fat32.c).  Boot sector, geometry refresh, first FAT
sector of each copy, zeroing of the remaining FAT sectors, root cluster
with `"."` → 2 and `".."` → 0, and the root's FAT entry set to EOC. -/
def fat32_format (ctx : Fat32Context) (d : Disk) : Int × Fat32Context × Disk :=
  let ctx1 := fat32_format_ctx ctx
  let r5 := fat32_write_cluster ctx1 (fat32_format_disk4 d) 2 (newDirCluster 2 0)
  if r5.1 ≠ 0 then (-1, ctx1, r5.2)
  else
    let r6 := fat32_set_fat_entry ctx1 r5.2 2 268435455
    if r6.1 ≠ 0 then (-1, ctx1, r6.2) else (0, ctx1, r6.2)

/-- C: `fat32_mkdir` (fat32.c).  The parent slot is written into the buffer
read before the child-cluster writes, exactly as the C stack buffer is. -/
def fat32_mkdir (ctx : Fat32Context) (d : Disk) (name : List Nat) : Int × Disk :=
  if name = [] then (-1, d)
  else if !(readClusterOk ctx d ctx.current_cluster) then (-1, d)
  else
    let buf := clusterView ctx d ctx.current_cluster
    let fname := fat32_format_name name
    if nameExistsFrom buf fname 0 128 then (-1, d)
    else
      match findFreeSlotFrom buf 0 128 with
      | none => (-1, d)
      | some free_entry =>
          let new_cluster := fat32_find_free_cluster ctx d
          if new_cluster = 0 then (-1, d)
          else
            let r1 := fat32_write_cluster ctx d new_cluster
              (newDirCluster new_cluster ctx.current_cluster)
            if r1.1 ≠ 0 then (-1, r1.2)
            else
              let r2 := fat32_set_fat_entry ctx r1.2 new_cluster 268435455
              if r2.1 ≠ 0 then (-1, r2.2)
              else
                let r3 := fat32_write_cluster ctx r2.2 ctx.current_cluster
                  (writeEntryBytes buf free_entry fname 16 new_cluster)
                if r3.1 ≠ 0 then (-1, r3.2) else (0, r3.2)

/-- C: `fat32_touch` (fat32.c).  Writes one entry with `ATTR_ARCHIVE` (32),
`file_size = 0` and cluster pointer 0 into the current directory cluster;
the FAT is never touched. -/
def fat32_touch (ctx : Fat32Context) (d : Disk) (name : List Nat) : Int × Disk :=
  if name = [] then (-1, d)
  else if !(readClusterOk ctx d ctx.current_cluster) then (-1, d)
  else
    let buf := clusterView ctx d ctx.current_cluster
    let fname := fat32_format_name name
    if nameExistsFrom buf fname 0 128 then (-1, d)
    else
      match findFreeSlotFrom buf 0 128 with
      | none => (-1, d)
      | some free_entry =>
          fat32_write_cluster ctx d ctx.current_cluster
            (writeEntryBytes buf free_entry fname 32 0)

/-- The path pop of `fat32_cd`'s `".."` branch: truncate at the last `'/'`,
or reset to `"/"` when that slash is the leading one (or absent). -/
def parentPath (p : List Nat) : List Nat :=
  match ((List.range p.length).filter (fun i => p.getD i 0 = 47)).getLast? with
  | none => [47]
  | some 0 => [47]
  | some k => p.take k

/-- C: `fat32_cd` (fat32.c).  Absolute paths only; `"/"`, `"/."`, `"/.."`
special-cased; multi-component paths rejected; otherwise a directory search
in the current cluster.  The path is rewritten by
`snprintf(current_path, 256, "/%s", dir_name)`, hence truncated to 255
bytes. -/
def fat32_cd (ctx : Fat32Context) (d : Disk) (path : List Nat) :
    Int × Fat32Context :=
  match path with
  | [] => (-1, ctx)
  | c :: rest =>
      if c ≠ 47 then (-1, ctx)
      else if rest = [] then
        (0, { ctx with current_cluster := 2, current_path := [47] })
      else if rest = [46] then (0, ctx)
      else if rest = [46, 46] then
        if ctx.current_cluster = 2 then (0, ctx)
        else if !(readClusterOk ctx d ctx.current_cluster) then (-1, ctx)
        else
          let buf := clusterView ctx d ctx.current_cluster
          match findDotDotFrom buf 0 128 with
          | none => (-1, ctx)
          | some i =>
              (0, { ctx with
                    current_cluster := entryCluster buf i
                    current_path := parentPath ctx.current_path })
      else if rest.contains 47 then (-1, ctx)
      else if !(readClusterOk ctx d ctx.current_cluster) then (-1, ctx)
      else
        let buf := clusterView ctx d ctx.current_cluster
        match findDirFrom buf (fat32_format_name rest) 0 128 with
        | none => (-1, ctx)
        | some i =>
            (0, { ctx with
                  current_cluster := entryCluster buf i
                  current_path := (47 :: rest).take 255 })

/-- Geometry sanity of a valid FAT32 image: all entries of a copy fit in
the copy, the two copies precede the data region, and the whole layout
stays far below the `uint32_t` seek-offset wrap. -/
structure GoodGeom (ctx : Fat32Context) : Prop where
  fat_fit : 4 * ctx.total_clusters ≤ 512 * ctx.fat_size
  fat_before_data : ctx.fat_start + 2 * ctx.fat_size ≤ ctx.data_start
  data_bound : ctx.data_start + ctx.total_clusters * 8 ≤ 8388608

/-- Cluster `c` is a plausible data cluster: at least 2 and its 8 sectors
stay below the seek-offset wrap. -/
def ClusterInRange (ctx : Fat32Context) (c : Nat) : Prop :=
  2 ≤ c ∧ ctx.data_start + (c - 2) * 8 + 8 ≤ 8388608

/-- FAT mirroring invariant: copies 0 and 1 hold byte-equal slots for every
cluster in `[2, total_clusters)`. -/
def FatCopiesAgree (ctx : Fat32Context) (d : Disk) : Prop :=
  ∀ c, c < ctx.total_clusters → 2 ≤ c → ∀ j, j < 4 →
    d.byte (fatEntryAddr ctx 0 c + j) % 256 = d.byte (fatEntryAddr ctx 1 c + j) % 256

/-! ## Basic lemmas about the disk primitives -/

lemma w32_eq_of_lt {n : Nat} (h : n < 4294967296) : w32 n = n := Nat.mod_eq_of_lt h

lemma write_sector_byte (d : Disk) (s : Nat) (buf : Nat → Nat) (o : Nat) :
    (fat32_write_sector d s buf).byte o =
      if w32 (s * 512) ≤ o ∧ o < w32 (s * 512) + 512 then buf (o - w32 (s * 512)) % 256
      else d.byte o := rfl

lemma write_sector_bad (d : Disk) (s : Nat) (buf : Nat → Nat) (o : Nat) :
    (fat32_write_sector d s buf).bad o =
      if o = w32 (s * 512) then false else d.bad o := rfl

lemma write_sector_bad_false {d : Disk} {o : Nat} (s : Nat) (buf : Nat → Nat)
    (h : d.bad o = false) : (fat32_write_sector d s buf).bad o = false := by
  rw [write_sector_bad]; split <;> simp [h]

lemma byte_decomp (x : Nat) :
    x % 256 + 256 * (x / 256 % 256) + 65536 * (x / 65536 % 256) +
      16777216 * (x / 16777216 % 256) = x % 4294967296 := by omega

lemma setU32le_at (b : Nat → Nat) (o v : Nat) :
    setU32le b o v o = v % 256 ∧ setU32le b o v (o + 1) = v / 256 % 256 ∧
      setU32le b o v (o + 2) = v / 65536 % 256 ∧
      setU32le b o v (o + 3) = v / 16777216 % 256 := by
  refine ⟨?_, ?_, ?_, ?_⟩ <;> unfold setU32le
  · rw [if_pos rfl]
  · rw [if_neg (by omega), if_pos rfl]
  · rw [if_neg (by omega), if_neg (by omega), if_pos rfl]
  · rw [if_neg (by omega), if_neg (by omega), if_neg (by omega), if_pos rfl]

lemma u32le_setU32le (b : Nat → Nat) (o v : Nat) :
    u32le (setU32le b o v) o = v % 4294967296 := by
  obtain ⟨h0, h1, h2, h3⟩ := setU32le_at b o v
  rw [u32le, h0, h1, h2, h3]; omega

lemma setU32le_other (b : Nat → Nat) (o v i : Nat)
    (h : i ≠ o ∧ i ≠ o + 1 ∧ i ≠ o + 2 ∧ i ≠ o + 3) : setU32le b o v i = b i := by
  unfold setU32le
  rw [if_neg h.1, if_neg h.2.1, if_neg h.2.2.1, if_neg h.2.2.2]

/-! ## Effect of the sector-range writers -/

lemma zeroSectors_byte (base : Nat) : ∀ (n s : Nat) (d : Disk) (o : Nat),
    base + s + n ≤ 8388608 →
    (zeroSectors base s n d).byte o =
      if (base + s) * 512 ≤ o ∧ o < (base + s + n) * 512 then 0 else d.byte o := by
  intro n
  induction n with
  | zero =>
      intro s d o h
      rw [zeroSectors, if_neg (by omega)]
  | succ n ih =>
      intro s d o h
      rw [zeroSectors, ih (s + 1) _ o (by omega)]
      have hw : w32 (base + s) = base + s := w32_eq_of_lt (by omega)
      rw [hw, write_sector_byte]
      have hw2 : w32 ((base + s) * 512) = (base + s) * 512 := w32_eq_of_lt (by omega)
      rw [hw2]
      split_ifs <;> first | rfl | omega

lemma zeroSectors_bad_false (base : Nat) : ∀ (n s : Nat) (d : Disk) (o : Nat),
    d.bad o = false → (zeroSectors base s n d).bad o = false := by
  intro n
  induction n with
  | zero => intro s d o h; rw [zeroSectors]; exact h
  | succ n ih =>
      intro s d o h
      rw [zeroSectors]
      exact ih (s + 1) _ o (write_sector_bad_false _ _ h)

lemma writeSectorsUp_byte (s0 : Nat) (buf : Nat → Nat) : ∀ (n i : Nat) (d : Disk) (o : Nat),
    s0 + i + n ≤ 8388608 →
    (writeSectorsUp s0 buf i n d).byte o =
      if (s0 + i) * 512 ≤ o ∧ o < (s0 + i + n) * 512 then buf (o - s0 * 512) % 256
      else d.byte o := by
  intro n
  induction n with
  | zero =>
      intro i d o h
      rw [writeSectorsUp, if_neg (by omega)]
  | succ n ih =>
      intro i d o h
      rw [writeSectorsUp, ih (i + 1) _ o (by omega)]
      have hw : w32 (s0 + i) = s0 + i := w32_eq_of_lt (by omega)
      rw [hw, write_sector_byte]
      have hw2 : w32 ((s0 + i) * 512) = (s0 + i) * 512 := w32_eq_of_lt (by omega)
      rw [hw2]
      split_ifs with h1 h2 h3
      · rfl
      · omega
      · have : i * 512 + (o - (s0 + i) * 512) = o - s0 * 512 := by omega
        rw [this]
      · omega
      · omega
      · rfl

lemma writeSectorsUp_bad_false (s0 : Nat) (buf : Nat → Nat) : ∀ (n i : Nat) (d : Disk) (o : Nat),
    d.bad o = false → (writeSectorsUp s0 buf i n d).bad o = false := by
  intro n
  induction n with
  | zero => intro i d o h; rw [writeSectorsUp]; exact h
  | succ n ih =>
      intro i d o h
      rw [writeSectorsUp]
      exact ih (i + 1) _ o (write_sector_bad_false _ _ h)

lemma writeSectorsUp_bad_cleared (s0 : Nat) (buf : Nat → Nat) : ∀ (n i : Nat) (d : Disk) (k : Nat),
    s0 + i + n ≤ 8388608 → i ≤ k → k < i + n →
    (writeSectorsUp s0 buf i n d).bad ((s0 + k) * 512) = false := by
  intro n
  induction n with
  | zero => intro i d k _ h1 h2; omega
  | succ n ih =>
      intro i d k h h1 h2
      rw [writeSectorsUp]
      rcases Nat.eq_or_lt_of_le h1 with heq | hlt
      · subst heq
        apply writeSectorsUp_bad_false
        rw [write_sector_bad]
        have hw : w32 (s0 + i) = s0 + i := w32_eq_of_lt (by omega)
        rw [hw, if_pos]
        exact (w32_eq_of_lt (by omega)).symm
      · exact ih (i + 1) _ k (by omega) hlt (by omega)

lemma writeSectorsUp_bad_outside (s0 : Nat) (buf : Nat → Nat) :
    ∀ (n i : Nat) (d : Disk) (o : Nat),
    s0 + i + n ≤ 8388608 → (∀ k, i ≤ k → k < i + n → o ≠ (s0 + k) * 512) →
    (writeSectorsUp s0 buf i n d).bad o = d.bad o := by
  intro n
  induction n with
  | zero => intro i d o _ _; rw [writeSectorsUp]
  | succ n ih =>
      intro i d o h hout
      rw [writeSectorsUp, ih (i + 1) _ o (by omega) (fun k hk1 hk2 => hout k (by omega) (by omega))]
      rw [write_sector_bad]
      have hw : w32 (s0 + i) = s0 + i := w32_eq_of_lt (by omega)
      rw [hw]
      have hw2 : w32 ((s0 + i) * 512) = (s0 + i) * 512 := w32_eq_of_lt (by omega)
      rw [hw2, if_neg (hout i (le_refl i) (by omega))]

/-! ## FAT addressing under sane geometry -/

lemma fat_layout {ctx : Fat32Context} (hg : GoodGeom ctx) {c : Nat}
    (hc : c < ctx.total_clusters) :
    fatEntryAddr ctx 0 c = ctx.fat_start * 512 + c * 4 ∧
    fatEntryAddr ctx 1 c = (ctx.fat_start + ctx.fat_size) * 512 + c * 4 ∧
    w32 (fatSector ctx 0 c * 512) = (ctx.fat_start + c * 4 / 512) * 512 ∧
    w32 (fatSector ctx 1 c * 512) = (ctx.fat_start + ctx.fat_size + c * 4 / 512) * 512 ∧
    fatOffset c = c * 4 % 512 ∧
    c * 4 / 512 < ctx.fat_size ∧
    ctx.fat_start + 2 * ctx.fat_size ≤ 8388608 ∧ 1 ≤ ctx.fat_size := by
  obtain ⟨hf, hb, hd⟩ := hg
  have h1 : c * 4 < 512 * ctx.fat_size := by omega
  have h2 : ctx.fat_size ≤ 4194304 := by omega
  simp only [fatEntryAddr, fatSector, fatOffset, w32]
  omega

lemma u32le_congr {b b' : Nat → Nat} {o : Nat}
    (h : ∀ j, j < 4 → b (o + j) = b' (o + j)) : u32le b o = u32le b' o := by
  have h0 := h 0 (by omega)
  have h1 := h 1 (by omega)
  have h2 := h 2 (by omega)
  have h3 := h 3 (by omega)
  simp only [Nat.add_zero] at h0
  unfold u32le
  rw [h0, h1, h2, h3]

lemma setU32le_at_j (b : Nat → Nat) (o v : Nat) {j : Nat} (hj : j < 4) :
    setU32le b o v (o + j) = v / 256 ^ j % 256 := by
  obtain ⟨h0, h1, h2, h3⟩ := setU32le_at b o v
  interval_cases j
  · simpa using h0
  · simpa using h1
  · rw [show (256 : Nat) ^ 2 = 65536 by norm_num]; exact h2
  · rw [show (256 : Nat) ^ 3 = 16777216 by norm_num]; exact h3

lemma fatSlot_view (ctx : Fat32Context) (d : Disk) (copy c : Nat) :
    u32le (sectorView d (fatSector ctx copy c)) (fatOffset c) = fatSlot ctx d copy c := by
  simp only [u32le, sectorView, fatSlot, fatEntryAddr, Nat.add_zero, Nat.zero_add,
    ← Nat.add_assoc]
  omega

/-! ## Effect of `fat32_set_fat_entry` -/

lemma read_sector_of_ok {d : Disk} {s : Nat} (h : d.bad (w32 (s * 512)) = false) :
    fat32_read_sector d s = some (sectorView d s) := by
  unfold fat32_read_sector
  rw [h]
  rfl

lemma read_sector_of_bad {d : Disk} {s : Nat} (h : d.bad (w32 (s * 512)) = true) :
    fat32_read_sector d s = none := by
  unfold fat32_read_sector
  rw [h]
  rfl

lemma rmw_byte {d : Disk} {s : Nat} (P off val o : Nat)
    (hP : w32 (s * 512) = P) (hoff : off + 4 ≤ 512) :
    (fat32_write_sector d s (setU32le (sectorView d s) off val)).byte o % 256 =
      if P + off ≤ o ∧ o < P + off + 4 then val / 256 ^ (o - (P + off)) % 256
      else d.byte o % 256 := by
  rw [write_sector_byte, hP]
  by_cases h1 : P ≤ o ∧ o < P + 512
  · rw [if_pos h1]
    by_cases h2 : P + off ≤ o ∧ o < P + off + 4
    · rw [if_pos h2]
      have he : o - P = off + (o - (P + off)) := by omega
      rw [he, setU32le_at_j _ _ _ (show o - (P + off) < 4 by omega)]
      omega
    · rw [if_neg h2, setU32le_other _ _ _ _ (by refine ⟨?_, ?_, ?_, ?_⟩ <;> omega)]
      unfold sectorView
      rw [hP]
      have he : P + (o - P) = o := by omega
      rw [he]
      omega
  · rw [if_neg h1, if_neg (by omega)]

/-- The first (copy 0) read-modify-write of `fat32_set_fat_entry`. -/
def fatWrite1 (ctx : Fat32Context) (d : Disk) (c v : Nat) : Disk :=
  fat32_write_sector d (fatSector ctx 0 c)
    (setU32le (sectorView d (fatSector ctx 0 c)) (fatOffset c)
      (u32le (sectorView d (fatSector ctx 0 c)) (fatOffset c) / 268435456 * 268435456 +
        v % 268435456))

/-- Both read-modify-writes of `fat32_set_fat_entry`. -/
def fatWrite2 (ctx : Fat32Context) (d : Disk) (c v : Nat) : Disk :=
  fat32_write_sector (fatWrite1 ctx d c v) (fatSector ctx 1 c)
    (setU32le (sectorView (fatWrite1 ctx d c v) (fatSector ctx 1 c)) (fatOffset c)
      (u32le (sectorView (fatWrite1 ctx d c v) (fatSector ctx 1 c)) (fatOffset c) /
          268435456 * 268435456 + v % 268435456))

lemma set_fat_entry_success {ctx : Fat32Context} {d : Disk} {c v : Nat}
    (hs : (fat32_set_fat_entry ctx d c v).1 = 0) :
    c < ctx.total_clusters ∧ d.bad (w32 (fatSector ctx 0 c * 512)) = false ∧
      (fatWrite1 ctx d c v).bad (w32 (fatSector ctx 1 c * 512)) = false ∧
      fat32_set_fat_entry ctx d c v = (0, fatWrite2 ctx d c v) := by
  by_cases h1 : ctx.total_clusters ≤ c
  · unfold fat32_set_fat_entry at hs
    rw [if_pos h1] at hs
    simp at hs
  · cases hb0 : d.bad (w32 (fatSector ctx 0 c * 512)) with
    | true =>
        exfalso
        unfold fat32_set_fat_entry at hs
        rw [if_neg h1, read_sector_of_bad hb0] at hs
        simp at hs
    | false =>
        cases hb1 : (fatWrite1 ctx d c v).bad (w32 (fatSector ctx 1 c * 512)) with
        | true =>
            exfalso
            unfold fat32_set_fat_entry at hs
            rw [if_neg h1, read_sector_of_ok hb0] at hs
            simp only [] at hs
            unfold fatWrite1 at hb1
            rw [read_sector_of_bad hb1] at hs
            simp at hs
        | false =>
            refine ⟨by omega, rfl, rfl, ?_⟩
            unfold fat32_set_fat_entry
            rw [if_neg h1, read_sector_of_ok hb0]
            simp only []
            unfold fatWrite1 at hb1
            rw [read_sector_of_ok hb1]
            rfl

lemma fatWrite1_byte {ctx : Fat32Context} {d : Disk} {c v : Nat}
    (hg : GoodGeom ctx) (hc : c < ctx.total_clusters) (o : Nat) :
    (fatWrite1 ctx d c v).byte o % 256 =
      if fatEntryAddr ctx 0 c ≤ o ∧ o < fatEntryAddr ctx 0 c + 4 then
        (fatSlot ctx d 0 c / 268435456 * 268435456 + v % 268435456) /
            256 ^ (o - fatEntryAddr ctx 0 c) % 256
      else d.byte o % 256 := by
  obtain ⟨hA0, hA1, hP0, hP1, hoff, hdiv, hbound, hfs⟩ := fat_layout hg hc
  unfold fatWrite1
  rw [fatSlot_view ctx d 0 c]
  rw [rmw_byte ((ctx.fat_start + c * 4 / 512) * 512) (fatOffset c) _ o hP0 (by omega)]
  have e0 : (ctx.fat_start + c * 4 / 512) * 512 + fatOffset c = fatEntryAddr ctx 0 c := by
    rw [hA0]; omega
  rw [e0]

lemma set_fat_entry_effect {ctx : Fat32Context} {d : Disk} {c v : Nat}
    (hg : GoodGeom ctx) (hs : (fat32_set_fat_entry ctx d c v).1 = 0) :
    ∀ o,
      (fat32_set_fat_entry ctx d c v).2.byte o % 256 =
        if fatEntryAddr ctx 0 c ≤ o ∧ o < fatEntryAddr ctx 0 c + 4 then
          (fatSlot ctx d 0 c / 268435456 * 268435456 + v % 268435456) /
              256 ^ (o - fatEntryAddr ctx 0 c) % 256
        else if fatEntryAddr ctx 1 c ≤ o ∧ o < fatEntryAddr ctx 1 c + 4 then
          (fatSlot ctx d 1 c / 268435456 * 268435456 + v % 268435456) /
              256 ^ (o - fatEntryAddr ctx 1 c) % 256
        else d.byte o % 256 := by
  obtain ⟨hc, hb0, hb1, heq⟩ := set_fat_entry_success hs
  obtain ⟨hA0, hA1, hP0, hP1, hoff, hdiv, hbound, hfs⟩ := fat_layout hg hc
  have hff := hg.fat_fit
  have hval1 : u32le (sectorView (fatWrite1 ctx d c v) (fatSector ctx 1 c)) (fatOffset c)
      = fatSlot ctx d 1 c := by
    rw [← fatSlot_view ctx d 1 c]
    apply u32le_congr
    intro j hj
    unfold sectorView
    rw [hP1]
    rw [fatWrite1_byte hg hc]
    rw [if_neg (by rw [hA0]; omega)]
  intro o
  rw [heq]
  unfold fatWrite2
  rw [hval1]
  rw [rmw_byte ((ctx.fat_start + ctx.fat_size + c * 4 / 512) * 512) (fatOffset c) _ o hP1
    (by omega)]
  have e1 : (ctx.fat_start + ctx.fat_size + c * 4 / 512) * 512 + fatOffset c
      = fatEntryAddr ctx 1 c := by
    rw [hA1]; omega
  rw [e1]
  rw [fatWrite1_byte hg hc o]
  have hdisj : fatEntryAddr ctx 0 c + 4 ≤ fatEntryAddr ctx 1 c := by
    rw [hA0, hA1]; omega
  split_ifs <;> omega

lemma set_fat_entry_bad_false {ctx : Fat32Context} {d : Disk} {c v o : Nat}
    (hs : (fat32_set_fat_entry ctx d c v).1 = 0) (h : d.bad o = false) :
    (fat32_set_fat_entry ctx d c v).2.bad o = false := by
  rw [(set_fat_entry_success hs).2.2.2]
  unfold fatWrite2 fatWrite1
  exact write_sector_bad_false _ _ (write_sector_bad_false _ _ h)

lemma set_fat_entry_bad_cleared0 {ctx : Fat32Context} {d : Disk} {c v : Nat}
    (hs : (fat32_set_fat_entry ctx d c v).1 = 0) :
    (fat32_set_fat_entry ctx d c v).2.bad (w32 (fatSector ctx 0 c * 512)) = false := by
  rw [(set_fat_entry_success hs).2.2.2]
  unfold fatWrite2
  apply write_sector_bad_false
  unfold fatWrite1
  rw [write_sector_bad, if_pos rfl]

/-! ## Reading FAT entries -/

lemma get_fat_entry_oob {ctx : Fat32Context} {d : Disk} {c : Nat}
    (h : ctx.total_clusters ≤ c) : fat32_get_fat_entry ctx d c = 268435455 := by
  unfold fat32_get_fat_entry
  rw [if_pos h]

lemma get_fat_entry_badRead {ctx : Fat32Context} {d : Disk} {c : Nat}
    (hc : c < ctx.total_clusters) (hb : d.bad (w32 (fatSector ctx 0 c * 512)) = true) :
    fat32_get_fat_entry ctx d c = 268435455 := by
  unfold fat32_get_fat_entry
  rw [if_neg (by omega), read_sector_of_bad hb]

lemma get_fat_entry_ok {ctx : Fat32Context} {d : Disk} {c : Nat}
    (hc : c < ctx.total_clusters) (hb : d.bad (w32 (fatSector ctx 0 c * 512)) = false) :
    fat32_get_fat_entry ctx d c = fatSlot ctx d 0 c % 268435456 := by
  unfold fat32_get_fat_entry
  rw [if_neg (by omega), read_sector_of_ok hb]
  simp only []
  rw [fatSlot_view]

lemma fatSlot_lt (ctx : Fat32Context) (d : Disk) (copy c : Nat) :
    fatSlot ctx d copy c < 4294967296 := by
  unfold fatSlot u32le
  omega

lemma u32le_of_bytes {b : Nat → Nat} {A X : Nat}
    (h : ∀ j, j < 4 → b (A + j) % 256 = X / 256 ^ j % 256) :
    u32le (fun j => b (A + j)) 0 = X % 4294967296 := by
  have h0 := h 0 (by omega)
  have h1 := h 1 (by omega)
  have h2 := h 2 (by omega)
  have h3 := h 3 (by omega)
  norm_num at h0 h1 h2 h3
  unfold u32le
  simp only [Nat.add_zero, Nat.zero_add]
  rw [h0, h1, h2, h3]
  omega

lemma fatSlot_after_set {ctx : Fat32Context} {d : Disk} {c v : Nat}
    (hg : GoodGeom ctx) (hs : (fat32_set_fat_entry ctx d c v).1 = 0) {copy : Nat}
    (hcopy : copy < 2) :
    fatSlot ctx (fat32_set_fat_entry ctx d c v).2 copy c
      = fatSlot ctx d copy c / 268435456 * 268435456 + v % 268435456 := by
  obtain ⟨hc, -, -, -⟩ := set_fat_entry_success hs
  obtain ⟨hA0, hA1, hP0, hP1, hoff, hdiv, hbound, hfs⟩ := fat_layout hg hc
  have hff := hg.fat_fit
  have heff := set_fat_entry_effect hg hs
  have hX : fatSlot ctx d copy c / 268435456 * 268435456 + v % 268435456 < 4294967296 := by
    have := fatSlot_lt ctx d copy c
    omega
  have hbytes : ∀ j, j < 4 →
      (fat32_set_fat_entry ctx d c v).2.byte (fatEntryAddr ctx copy c + j) % 256 =
        (fatSlot ctx d copy c / 268435456 * 268435456 + v % 268435456) / 256 ^ j % 256 := by
    intro j hj
    interval_cases copy
    · rw [heff (fatEntryAddr ctx 0 c + j)]
      rw [if_pos (by omega)]
      have e : fatEntryAddr ctx 0 c + j - fatEntryAddr ctx 0 c = j := by omega
      rw [e]
    · rw [heff (fatEntryAddr ctx 1 c + j)]
      rw [if_neg (by rw [hA0, hA1]; omega), if_pos (by omega)]
      have e : fatEntryAddr ctx 1 c + j - fatEntryAddr ctx 1 c = j := by omega
      rw [e]
  have hmain := u32le_of_bytes hbytes
  calc fatSlot ctx (fat32_set_fat_entry ctx d c v).2 copy c
      = (fatSlot ctx d copy c / 268435456 * 268435456 + v % 268435456) % 4294967296 :=
        hmain
    _ = _ := Nat.mod_eq_of_lt hX

/-! ## The free-cluster scan -/

lemma findFreeFrom_spec (ctx : Fat32Context) (d : Disk) : ∀ (n s : Nat), 1 ≤ s →
    (findFreeFrom ctx d s n = 0 ∧
      ∀ c, s ≤ c → c < s + n → fat32_get_fat_entry ctx d c ≠ 0) ∨
    (s ≤ findFreeFrom ctx d s n ∧ findFreeFrom ctx d s n < s + n ∧
      fat32_get_fat_entry ctx d (findFreeFrom ctx d s n) = 0 ∧
      ∀ c, s ≤ c → c < findFreeFrom ctx d s n → fat32_get_fat_entry ctx d c ≠ 0) := by
  intro n
  induction n with
  | zero =>
      intro s hs
      left
      exact ⟨rfl, fun c h1 h2 => absurd h2 (by omega)⟩
  | succ n ih =>
      intro s hs
      rw [findFreeFrom]
      by_cases h : fat32_get_fat_entry ctx d s = 0
      · rw [if_pos h]
        right
        exact ⟨le_refl s, by omega, h, fun c h1 h2 => absurd h2 (by omega)⟩
      · rw [if_neg h]
        rcases ih (s + 1) (by omega) with ⟨h0, hall⟩ | ⟨h1, h2, h3, h4⟩
        · left
          refine ⟨h0, fun c hc1 hc2 => ?_⟩
          rcases Nat.eq_or_lt_of_le hc1 with heq | hlt
          · subst heq; exact h
          · exact hall c (by omega) (by omega)
        · right
          refine ⟨by omega, by omega, h3, fun c hc1 hc2 => ?_⟩
          rcases Nat.eq_or_lt_of_le hc1 with heq | hlt
          · subst heq; exact h
          · exact h4 c (by omega) hc2

/-! ## Concrete geometry and disks used by the witnesses -/

/-- The geometry cached after `fat32_format` (fat_start 32, data_start 544,
fat_size 256, total_clusters (40960-544)/8 = 5052), root cursor. -/
def ctxFmt : Fat32Context := ⟨32, 544, 256, 5052, [47], 2⟩

/-- The all-zero, fully readable disk. -/
def dzero : Disk := ⟨fun _ => false, fun _ => 0⟩

/-- A disk on which every sector read fails. -/
def dallbad : Disk := ⟨fun _ => true, fun _ => 0⟩

/-! ## Claims C4, C5, C9, C10 -/

/-- C10: `fat32_format` never modifies the session cursor: `current_path`
and `current_cluster` are the same after a format as before it. -/
theorem format_preserves_cursor (ctx : Fat32Context) (d : Disk) :
    (fat32_format ctx d).2.1.current_path = ctx.current_path ∧
      (fat32_format ctx d).2.1.current_cluster = ctx.current_cluster := by
  simp only [fat32_format]
  split_ifs <;> exact ⟨rfl, rfl⟩

/-- C5: `fat32_find_free_cluster` performs a linear scan over clusters
`2, …, total_clusters - 1` and returns the smallest cluster whose FAT entry
reads 0; if every entry in that range is nonzero it returns 0. -/
theorem find_free_cluster_correct (ctx : Fat32Context) (d : Disk) :
    (fat32_find_free_cluster ctx d = 0 →
      ∀ c, 2 ≤ c → c < ctx.total_clusters → fat32_get_fat_entry ctx d c ≠ 0) ∧
    (fat32_find_free_cluster ctx d ≠ 0 →
      2 ≤ fat32_find_free_cluster ctx d ∧
      fat32_find_free_cluster ctx d < ctx.total_clusters ∧
      fat32_get_fat_entry ctx d (fat32_find_free_cluster ctx d) = 0 ∧
      ∀ c, 2 ≤ c → c < fat32_find_free_cluster ctx d →
        fat32_get_fat_entry ctx d c ≠ 0) := by
  have h := findFreeFrom_spec ctx d (ctx.total_clusters - 2) 2 (by omega)
  unfold fat32_find_free_cluster
  rcases h with ⟨h0, hall⟩ | ⟨h1, h2, h3, h4⟩
  · constructor
    · intro _ c hc1 hc2
      exact hall c hc1 (by omega)
    · intro hne
      rw [h0] at hne
      exact absurd rfl hne
  · constructor
    · intro h0
      rw [h0] at h1
      omega
    · intro _
      exact ⟨h1, by omega, h3, h4⟩

/-- Witness for C5: on an all-zero disk with the formatted geometry the scan
returns cluster 2, the smallest free cluster. -/
theorem find_free_cluster_correct_witness :
    fat32_find_free_cluster ctxFmt dzero ≠ 0 ∧
      (2 ≤ fat32_find_free_cluster ctxFmt dzero ∧
       fat32_find_free_cluster ctxFmt dzero < ctxFmt.total_clusters ∧
       fat32_get_fat_entry ctxFmt dzero (fat32_find_free_cluster ctxFmt dzero) = 0 ∧
       ∀ c, 2 ≤ c → c < fat32_find_free_cluster ctxFmt dzero →
         fat32_get_fat_entry ctxFmt dzero c ≠ 0) :=
  ⟨by decide, (find_free_cluster_correct ctxFmt dzero).2 (by decide)⟩

/-- C9: for in-range clusters whose FAT sector read fails,
`fat32_get_fat_entry` returns `0x0FFFFFFF`, the same value as the
end-of-chain sentinel and the out-of-range result; consequently
`fat32_find_free_cluster` on an unreadable disk finds nothing. -/
theorem get_fat_entry_io_error_sentinel :
    (∀ (ctx : Fat32Context) (d : Disk) (c : Nat), c < ctx.total_clusters →
      d.bad (w32 (fatSector ctx 0 c * 512)) = true →
      fat32_get_fat_entry ctx d c = 268435455) ∧
    (∀ (ctx : Fat32Context) (d : Disk) (c : Nat), ctx.total_clusters ≤ c →
      fat32_get_fat_entry ctx d c = 268435455) ∧
    (∀ (ctx : Fat32Context) (d : Disk), (∀ o, d.bad o = true) →
      fat32_find_free_cluster ctx d = 0) := by
  refine ⟨fun ctx d c hc hb => get_fat_entry_badRead hc hb,
    fun ctx d c h => get_fat_entry_oob h, fun ctx d hb => ?_⟩
  have hone : ∀ c, c < ctx.total_clusters → fat32_get_fat_entry ctx d c = 268435455 :=
    fun c hc => get_fat_entry_badRead hc (hb _)
  unfold fat32_find_free_cluster
  rcases findFreeFrom_spec ctx d (ctx.total_clusters - 2) 2 (by omega) with
    ⟨h0, -⟩ | ⟨h1, h2, h3, -⟩
  · exact h0
  · exfalso
    have hEoc := hone (findFreeFrom ctx d 2 (ctx.total_clusters - 2)) (by omega)
    omega

/-- Witness for C9: on a fully unreadable disk, reading entry 5 of the
formatted geometry yields the sentinel, and the free scan returns 0. -/
theorem get_fat_entry_io_error_sentinel_witness :
    ((5 : Nat) < ctxFmt.total_clusters ∧
      dallbad.bad (w32 (fatSector ctxFmt 0 5 * 512)) = true ∧
      fat32_get_fat_entry ctxFmt dallbad 5 = 268435455) ∧
    fat32_find_free_cluster ctxFmt dallbad = 0 :=
  ⟨⟨by decide, by decide,
      get_fat_entry_io_error_sentinel.1 ctxFmt dallbad 5 (by decide) (by decide)⟩,
    get_fat_entry_io_error_sentinel.2.2 ctxFmt dallbad (fun _ => rfl)⟩

/-- C4: FAT entry round-trip.  A successful `fat32_set_fat_entry c v`
followed by `fat32_get_fat_entry c` returns `v & 0x0FFFFFFF` (`v % 2^28`);
the write stores only the low 28 bits of `v` into each copy, preserving the
stored slot's top 4 bits; out-of-range reads return the EOC sentinel and
out-of-range writes are rejected leaving the disk unchanged. -/
theorem fat_entry_roundtrip :
    (∀ (ctx : Fat32Context) (d : Disk) (c v : Nat), GoodGeom ctx →
      (fat32_set_fat_entry ctx d c v).1 = 0 →
      fat32_get_fat_entry ctx (fat32_set_fat_entry ctx d c v).2 c = v % 268435456 ∧
      ∀ copy, copy < 2 →
        fatSlot ctx (fat32_set_fat_entry ctx d c v).2 copy c =
          fatSlot ctx d copy c / 268435456 * 268435456 + v % 268435456) ∧
    (∀ (ctx : Fat32Context) (d : Disk) (c v : Nat), ctx.total_clusters ≤ c →
      fat32_get_fat_entry ctx d c = 268435455 ∧
      fat32_set_fat_entry ctx d c v = (-1, d)) := by
  constructor
  · intro ctx d c v hg hs
    have hsucc := set_fat_entry_success hs
    have hslot := fatSlot_after_set hg hs (show (0 : Nat) < 2 by omega)
    constructor
    · rw [get_fat_entry_ok hsucc.1 (set_fat_entry_bad_cleared0 hs), hslot]
      omega
    · intro copy hcopy
      exact fatSlot_after_set hg hs hcopy
  · intro ctx d c v h
    refine ⟨get_fat_entry_oob h, ?_⟩
    unfold fat32_set_fat_entry
    rw [if_pos h]

/-- Witness for C4: set entry 5 to `0xABCDEF12` on the zero disk, read back
`0xABCDEF12 & 0x0FFFFFFF`. -/
theorem fat_entry_roundtrip_witness :
    GoodGeom ctxFmt ∧ (fat32_set_fat_entry ctxFmt dzero 5 2882400018).1 = 0 ∧
      fat32_get_fat_entry ctxFmt (fat32_set_fat_entry ctxFmt dzero 5 2882400018).2 5 =
        2882400018 % 268435456 :=
  have hg : GoodGeom ctxFmt := by constructor <;> decide
  have hs : (fat32_set_fat_entry ctxFmt dzero 5 2882400018).1 = 0 := by decide
  ⟨hg, hs, (fat_entry_roundtrip.1 ctxFmt dzero 5 2882400018 hg hs).1⟩

/-! ## Claim C2: `fat32_is_valid` -/

/-- A disk whose sector 0 carries a valid signature and `"FAT32"` type,
`sectors_per_cluster` 8, `reserved_sectors` 32, `fat_count` 2,
`fat_size_32` 256 — but `total_sectors_32 = 1048576`, not 40960. -/
def dC2 : Disk := ⟨fun _ => false, fun o =>
  if o = 13 then 8
  else if o = 14 then 32
  else if o = 16 then 2
  else if o = 34 then 16
  else if o = 37 then 1
  else if o = 82 then 70 else if o = 83 then 65 else if o = 84 then 84
  else if o = 85 then 51 else if o = 86 then 50
  else if o = 510 then 85 else if o = 511 then 170
  else 0⟩

/-- C2 counterexample: on a valid-looking boot sector whose
`total_sectors_32` field is 1048576, `fat32_is_valid` succeeds but caches
`total_clusters = (40960 - 544) / 8` from the compiled-in `TOTAL_SECTORS`,
not `(total_sectors_32 - data_start) / sectors_per_cluster` as the claim
asserts. -/
theorem is_valid_total_clusters_counterexample :
    (fat32_is_valid ctxFmt dC2).1 = 0 ∧
      u32le (sectorView dC2 0) 32 = 1048576 ∧
      (fat32_is_valid ctxFmt dC2).2.total_clusters = (40960 - 544) / 8 ∧
      (fat32_is_valid ctxFmt dC2).2.total_clusters ≠ (1048576 - 544) / 8 := by
  decide

/-- C2 (amended): given a readable sector 0, `fat32_is_valid` succeeds iff
the signature word at 510 is `0xAA55` and the `fs_type` bytes at 82 start
with ASCII `"FAT32"`; on success `fat_size`, `fat_start` and `data_start`
are recomputed from the sector's own fields, while `total_clusters` divides
`TOTAL_SECTORS - data_start` — the compiled-in 40960, not the sector's
`total_sectors_32` — by the sector's `sectors_per_cluster`. -/
theorem is_valid_checks_and_geometry (ctx : Fat32Context) (d : Disk)
    (hb : d.bad (w32 (0 * 512)) = false) :
    ((fat32_is_valid ctx d).1 = 0 ↔
      (u16le (sectorView d 0) 510 = 43605 ∧ sectorView d 0 82 = 70 ∧
        sectorView d 0 83 = 65 ∧ sectorView d 0 84 = 84 ∧
        sectorView d 0 85 = 51 ∧ sectorView d 0 86 = 50)) ∧
    ((fat32_is_valid ctx d).1 = 0 →
      (fat32_is_valid ctx d).2.fat_size = u32le (sectorView d 0) 36 ∧
      (fat32_is_valid ctx d).2.fat_start = u16le (sectorView d 0) 14 ∧
      (fat32_is_valid ctx d).2.data_start =
        w32 (u16le (sectorView d 0) 14 +
          w32 (sectorView d 0 16 * u32le (sectorView d 0) 36)) ∧
      (fat32_is_valid ctx d).2.total_clusters =
        sub32 40960 ((fat32_is_valid ctx d).2.data_start) / sectorView d 0 13) := by
  unfold fat32_is_valid
  rw [read_sector_of_ok hb]
  simp only []
  split_ifs with hsig hft
  · refine ⟨⟨fun h => by simp at h, fun h => absurd h.1 hsig⟩, fun h => by simp at h⟩
  · refine ⟨⟨fun _ => ⟨not_ne_iff.mp hsig, hft⟩, fun _ => rfl⟩,
      fun _ => ⟨rfl, rfl, rfl, rfl⟩⟩
  · refine ⟨⟨fun h => by simp at h, fun h => absurd ⟨h.2.1, h.2.2.1, h.2.2.2.1,
      h.2.2.2.2.1, h.2.2.2.2.2⟩ hft⟩, fun h => by simp at h⟩

/-- Witness for the amended C2 at the crafted boot sector `dC2`. -/
theorem is_valid_checks_and_geometry_witness :
    dC2.bad (w32 (0 * 512)) = false ∧
    (((fat32_is_valid ctxFmt dC2).1 = 0 ↔
      (u16le (sectorView dC2 0) 510 = 43605 ∧ sectorView dC2 0 82 = 70 ∧
        sectorView dC2 0 83 = 65 ∧ sectorView dC2 0 84 = 84 ∧
        sectorView dC2 0 85 = 51 ∧ sectorView dC2 0 86 = 50)) ∧
    ((fat32_is_valid ctxFmt dC2).1 = 0 →
      (fat32_is_valid ctxFmt dC2).2.fat_size = u32le (sectorView dC2 0) 36 ∧
      (fat32_is_valid ctxFmt dC2).2.fat_start = u16le (sectorView dC2 0) 14 ∧
      (fat32_is_valid ctxFmt dC2).2.data_start =
        w32 (u16le (sectorView dC2 0) 14 +
          w32 (sectorView dC2 0 16 * u32le (sectorView dC2 0) 36)) ∧
      (fat32_is_valid ctxFmt dC2).2.total_clusters =
        sub32 40960 ((fat32_is_valid ctxFmt dC2).2.data_start) / sectorView dC2 0 13)) :=
  ⟨rfl, is_valid_checks_and_geometry ctxFmt dC2 rfl⟩

/-! ## Claim C6: mkdir collision -/

lemma nameExists_of_mem : ∀ (n i0 : Nat) (buf : Nat → Nat) (fname : List Nat) (i : Nat),
    i ∈ liveIdx buf i0 n → entryName buf i = fname →
    nameExistsFrom buf fname i0 n = true := by
  intro n
  induction n with
  | zero =>
      intro i0 buf fname i h _
      rw [liveIdx] at h
      simp at h
  | succ n ih =>
      intro i0 buf fname i hmem hname
      rw [liveIdx] at hmem
      rw [nameExistsFrom]
      by_cases h0 : buf (32 * i0) = 0
      · rw [if_pos h0] at hmem
        simp at hmem
      · rw [if_neg h0] at hmem
        by_cases hE : buf (32 * i0) = 229
        · rw [if_pos hE] at hmem
          rw [if_neg h0, if_pos hE]
          exact ih (i0 + 1) buf fname i hmem hname
        · rw [if_neg hE] at hmem
          rw [if_neg h0, if_neg hE]
          rcases List.mem_cons.mp hmem with heq | hmem'
          · subst heq
            rw [if_pos hname]
          · by_cases hn : entryName buf i0 = fname
            · rw [if_pos hn]
            · rw [if_neg hn]
              exact ih (i0 + 1) buf fname i hmem' hname

/-- C6: if the normalization of `name` coincides with the name of a live
(non-terminal, non-deleted) entry of the current directory cluster,
`fat32_mkdir` fails and returns the disk unchanged: no directory cluster,
FAT sector or data cluster is written. -/
theorem mkdir_collision_fails (ctx : Fat32Context) (d : Disk) (name : List Nat)
    (i : Nat) (hok : readClusterOk ctx d ctx.current_cluster = true)
    (hmem : i ∈ scanEntries (clusterView ctx d ctx.current_cluster))
    (hname : entryName (clusterView ctx d ctx.current_cluster) i
      = fat32_format_name name) :
    fat32_mkdir ctx d name = (-1, d) := by
  unfold fat32_mkdir
  by_cases hnil : name = []
  · rw [if_pos hnil]
  · rw [if_neg hnil]
    rw [hok]
    simp only [Bool.not_true, Bool.false_eq_true, if_false]
    rw [if_pos (nameExists_of_mem 128 0 _ _ i hmem hname)]

/-- A readable disk whose root cluster holds one live entry: name
`"aaaaaaaaaaa"` (11 bytes 97), attribute `ATTR_DIRECTORY`. -/
def dEnt : Disk := ⟨fun _ => false, fun o =>
  if 278528 ≤ o ∧ o < 278539 then 97
  else if o = 278539 then 16
  else 0⟩

/-- Witness for C6: creating `aaaaaaaaaaa` again in a directory that holds
it fails and leaves the disk untouched. -/
theorem mkdir_collision_fails_witness :
    readClusterOk ctxFmt dEnt ctxFmt.current_cluster = true ∧
      0 ∈ scanEntries (clusterView ctxFmt dEnt ctxFmt.current_cluster) ∧
      entryName (clusterView ctxFmt dEnt ctxFmt.current_cluster) 0
        = fat32_format_name (List.replicate 11 97) ∧
      fat32_mkdir ctxFmt dEnt (List.replicate 11 97) = (-1, dEnt) :=
  have h1 : readClusterOk ctxFmt dEnt ctxFmt.current_cluster = true := by decide
  have h2 : 0 ∈ scanEntries (clusterView ctxFmt dEnt ctxFmt.current_cluster) := by decide
  have h3 : entryName (clusterView ctxFmt dEnt ctxFmt.current_cluster) 0
      = fat32_format_name (List.replicate 11 97) := by decide
  ⟨h1, h2, h3, mkdir_collision_fails ctxFmt dEnt (List.replicate 11 97) 0 h1 h2 h3⟩

/-! ## Claim C8: `fat32_cd` on single components -/

set_option maxRecDepth 40000 in
/-- C8 counterexample: for the 255-byte name `aaa…a`, `fat32_cd` succeeds
(the 11-byte normalization matches the directory entry) but the session
path is the `snprintf`-truncated 255-byte string, not `"/<name>"`. -/
theorem cd_path_truncation_counterexample :
    (fat32_cd ctxFmt dEnt (47 :: List.replicate 255 97)).1 = 0 ∧
      (fat32_cd ctxFmt dEnt (47 :: List.replicate 255 97)).2.current_path
        ≠ 47 :: List.replicate 255 97 := by
  decide

/-- C8 (amended): for a path `"/<name>"` with `<name>` nonempty, not `"."`
or `".."`, containing no `'/'` and at most 254 bytes long, a successful
`fat32_cd` means the directory search found a matching DIRECTORY entry; the
cursor cluster is set from that entry and the session path is replaced by
exactly `"/<name>"`.  A path with any further `'/'` beyond the leading one
always fails and leaves the context unchanged. -/
theorem cd_single_component :
    (∀ (ctx : Fat32Context) (d : Disk) (rest : List Nat),
      rest ≠ [] → rest ≠ [46] → rest ≠ [46, 46] → ¬ 47 ∈ rest →
      rest.length ≤ 254 → (fat32_cd ctx d (47 :: rest)).1 = 0 →
      ∃ i, findDirFrom (clusterView ctx d ctx.current_cluster)
            (fat32_format_name rest) 0 128 = some i ∧
        (fat32_cd ctx d (47 :: rest)).2.current_cluster
          = entryCluster (clusterView ctx d ctx.current_cluster) i ∧
        (fat32_cd ctx d (47 :: rest)).2.current_path = 47 :: rest) ∧
    (∀ (ctx : Fat32Context) (d : Disk) (rest : List Nat), 47 ∈ rest →
      fat32_cd ctx d (47 :: rest) = (-1, ctx)) := by
  constructor
  · intro ctx d rest hne hdot hdotdot hslash hlen hsucc
    have hc : rest.contains 47 = false := by
      cases h : rest.contains 47
      · rfl
      · exact absurd (List.elem_iff.mp h) hslash
    unfold fat32_cd at hsucc ⊢
    simp only [] at hsucc ⊢
    rw [if_neg (show ¬ (47 : Nat) ≠ 47 by omega), if_neg hne, if_neg hdot,
      if_neg hdotdot, hc] at hsucc ⊢
    simp only [Bool.false_eq_true, if_false] at hsucc ⊢
    cases hok : readClusterOk ctx d ctx.current_cluster with
    | false => rw [hok] at hsucc; simp at hsucc
    | true =>
        simp only [Bool.not_true, Bool.false_eq_true, if_false] at hsucc ⊢
        cases hf : findDirFrom (clusterView ctx d ctx.current_cluster)
            (fat32_format_name rest) 0 128 with
        | none => rw [hok, hf] at hsucc; simp at hsucc
        | some i =>
            refine ⟨i, rfl, rfl, ?_⟩
            show (47 :: rest).take 255 = 47 :: rest
            rw [show (255 : Nat) = 254 + 1 from rfl, List.take_succ_cons,
              List.take_of_length_le hlen]
  · intro ctx d rest hmem
    have hne : rest ≠ [] := by rintro rfl; simp at hmem
    have hdot : rest ≠ [46] := by rintro rfl; simp at hmem
    have hdotdot : rest ≠ [46, 46] := by rintro rfl; simp at hmem
    have hc : rest.contains 47 = true := List.elem_iff.mpr hmem
    unfold fat32_cd
    simp only []
    rw [if_neg (show ¬ (47 : Nat) ≠ 47 by omega), if_neg hne, if_neg hdot,
      if_neg hdotdot, hc]
    simp

/-- Witness for the amended C8: `cd /aaaaaaaaaaa` on a directory holding
that entry sets the cursor from the entry and replaces the path. -/
theorem cd_single_component_witness :
    (List.replicate 11 97 ≠ ([] : List Nat) ∧ List.replicate 11 97 ≠ [46] ∧
      List.replicate 11 97 ≠ [46, 46] ∧ ¬ 47 ∈ List.replicate 11 97 ∧
      (List.replicate 11 97).length ≤ 254 ∧
      (fat32_cd ctxFmt dEnt (47 :: List.replicate 11 97)).1 = 0) ∧
    (∃ i, findDirFrom (clusterView ctxFmt dEnt ctxFmt.current_cluster)
          (fat32_format_name (List.replicate 11 97)) 0 128 = some i ∧
      (fat32_cd ctxFmt dEnt (47 :: List.replicate 11 97)).2.current_cluster
        = entryCluster (clusterView ctxFmt dEnt ctxFmt.current_cluster) i ∧
      (fat32_cd ctxFmt dEnt (47 :: List.replicate 11 97)).2.current_path
        = 47 :: List.replicate 11 97) :=
  have h1 : List.replicate 11 97 ≠ ([] : List Nat) := by decide
  have h2 : List.replicate 11 97 ≠ [46] := by decide
  have h3 : List.replicate 11 97 ≠ [46, 46] := by decide
  have h4 : ¬ 47 ∈ List.replicate 11 97 := by decide
  have h5 : (List.replicate 11 97).length ≤ 254 := by decide
  have h6 : (fat32_cd ctxFmt dEnt (47 :: List.replicate 11 97)).1 = 0 := by decide
  ⟨⟨h1, h2, h3, h4, h5, h6⟩,
    cd_single_component.1 ctxFmt dEnt (List.replicate 11 97) h1 h2 h3 h4 h5 h6⟩

/-! ## Cluster-write effects (for touch, mkdir and format) -/

lemma cluster_layout {ctx : Fat32Context} {c : Nat} (h : ClusterInRange ctx c) :
    clusterSector ctx c = ctx.data_start + (c - 2) * 8 ∧
    ∀ j, j < 4096 →
      w32 (w32 (clusterSector ctx c + j / 512) * 512) + j % 512
        = (ctx.data_start + (c - 2) * 8) * 512 + j := by
  obtain ⟨h2, hb⟩ := h
  have hcs : clusterSector ctx c = ctx.data_start + (c - 2) * 8 := by
    unfold clusterSector w32
    omega
  refine ⟨hcs, fun j hj => ?_⟩
  rw [hcs]
  unfold w32
  omega

lemma clusterView_eq {ctx : Fat32Context} {d : Disk} {c : Nat}
    (h : ClusterInRange ctx c) {j : Nat} (hj : j < 4096) :
    clusterView ctx d c j = d.byte ((ctx.data_start + (c - 2) * 8) * 512 + j) % 256 := by
  unfold clusterView
  rw [(cluster_layout h).2 j hj]

lemma writeCluster_frame {ctx : Fat32Context} {d : Disk} {c : Nat} (buf : Nat → Nat)
    (h : ClusterInRange ctx c) :
    (∀ o, (writeSectorsUp (clusterSector ctx c) buf 0 8 d).byte o =
      if (ctx.data_start + (c - 2) * 8) * 512 ≤ o ∧
          o < (ctx.data_start + (c - 2) * 8) * 512 + 4096 then
        buf (o - (ctx.data_start + (c - 2) * 8) * 512) % 256
      else d.byte o) ∧
    (∀ o, (∀ k, k < 8 → o ≠ (ctx.data_start + (c - 2) * 8 + k) * 512) →
      (writeSectorsUp (clusterSector ctx c) buf 0 8 d).bad o = d.bad o) := by
  obtain ⟨h2, hb⟩ := h
  have hcs := (cluster_layout ⟨h2, hb⟩).1
  rw [hcs]
  constructor
  · intro o
    rw [writeSectorsUp_byte _ _ 8 0 d o (by omega)]
    split_ifs <;> first | rfl | omega
  · intro o ho
    exact writeSectorsUp_bad_outside _ _ 8 0 d o (by omega)
      (fun k hk1 hk2 => ho k (by omega))

lemma findFreeSlot_lt : ∀ (n i0 : Nat) (buf : Nat → Nat) (i : Nat),
    findFreeSlotFrom buf i0 n = some i → i0 ≤ i ∧ i < i0 + n := by
  intro n
  induction n with
  | zero =>
      intro i0 buf i h
      rw [findFreeSlotFrom] at h
      simp at h
  | succ n ih =>
      intro i0 buf i h
      rw [findFreeSlotFrom] at h
      split_ifs at h with hc
      · simp at h
        omega
      · have := ih (i0 + 1) buf i h
        omega

lemma touch_success_shape {ctx : Fat32Context} {d : Disk} {name : List Nat}
    (hs : (fat32_touch ctx d name).1 = 0) :
    ∃ i, readClusterOk ctx d ctx.current_cluster = true ∧
      findFreeSlotFrom (clusterView ctx d ctx.current_cluster) 0 128 = some i ∧
      ¬ ctx.current_cluster < 2 ∧
      (fat32_touch ctx d name).2
        = writeSectorsUp (clusterSector ctx ctx.current_cluster)
            (writeEntryBytes (clusterView ctx d ctx.current_cluster) i
              (fat32_format_name name) 32 0) 0 8 d := by
  unfold fat32_touch at hs ⊢
  by_cases hnil : name = []
  · rw [if_pos hnil] at hs
    simp at hs
  · rw [if_neg hnil] at hs ⊢
    cases hok : readClusterOk ctx d ctx.current_cluster with
    | false =>
        rw [hok] at hs
        simp at hs
    | true =>
        rw [hok] at hs
        simp only [Bool.not_true, Bool.false_eq_true, if_false] at hs ⊢
        by_cases hex : nameExistsFrom (clusterView ctx d ctx.current_cluster)
            (fat32_format_name name) 0 128 = true
        · rw [if_pos hex] at hs
          simp at hs
        · rw [if_neg hex] at hs ⊢
          cases hfs : findFreeSlotFrom (clusterView ctx d ctx.current_cluster) 0 128 with
          | none =>
              rw [hfs] at hs
              simp at hs
          | some i =>
              rw [hfs] at hs
              simp only [] at hs ⊢
              unfold fat32_write_cluster at hs ⊢
              by_cases hlt : ctx.current_cluster < 2
              · rw [if_pos hlt] at hs
                simp at hs
              · rw [if_neg hlt] at hs ⊢
                refine ⟨i, by simp, rfl, hlt, rfl⟩

lemma writeEntryBytes_at {buf : Nat → Nat} {i : Nat} {fname : List Nat}
    {attr cluster : Nat} {j : Nat} (hj : j < 32) :
    writeEntryBytes buf i fname attr cluster (32 * i + j)
      = if j < 11 then fname.getD j 0
        else if j = 11 then attr
        else if j = 20 then cluster / 65536 % 256
        else if j = 21 then cluster / 16777216 % 256
        else if j = 26 then cluster % 256
        else if j = 27 then cluster / 256 % 256
        else 0 := by
  unfold writeEntryBytes
  rw [if_pos (by omega)]
  simp only []
  rw [show 32 * i + j - 32 * i = j by omega]

lemma writeEntryBytes_other {buf : Nat → Nat} {i : Nat} {fname : List Nat}
    {attr cluster k : Nat} (h : ¬ (32 * i ≤ k ∧ k < 32 * i + 32)) :
    writeEntryBytes buf i fname attr cluster k = buf k := by
  unfold writeEntryBytes
  rw [if_neg h]

/-- C7: a successful `fat32_touch` writes exactly one new directory entry —
the formatted name, `ATTR_ARCHIVE` (32), `file_size` 0 and cluster pointer
0, i.e. entry bytes 12–31 all zero — into the first free slot of the
current directory cluster, and modifies nothing else on the image; in
particular every FAT entry (both copies live below `data_start`) reads
exactly as before: no cluster is allocated for the empty file. -/
theorem touch_frame (ctx : Fat32Context) (d : Disk) (name : List Nat)
    (hg : GoodGeom ctx) (hcc : ClusterInRange ctx ctx.current_cluster)
    (hs : (fat32_touch ctx d name).1 = 0) :
    ∃ i, findFreeSlotFrom (clusterView ctx d ctx.current_cluster) 0 128 = some i ∧
      (∀ j, j < 11 →
        (fat32_touch ctx d name).2.byte
            ((ctx.data_start + (ctx.current_cluster - 2) * 8) * 512 + 32 * i + j)
          = (fat32_format_name name).getD j 0 % 256) ∧
      (fat32_touch ctx d name).2.byte
          ((ctx.data_start + (ctx.current_cluster - 2) * 8) * 512 + 32 * i + 11) = 32 ∧
      (∀ j, 12 ≤ j → j < 32 →
        (fat32_touch ctx d name).2.byte
            ((ctx.data_start + (ctx.current_cluster - 2) * 8) * 512 + 32 * i + j) = 0) ∧
      (∀ o, ¬ ((ctx.data_start + (ctx.current_cluster - 2) * 8) * 512 + 32 * i ≤ o ∧
            o < (ctx.data_start + (ctx.current_cluster - 2) * 8) * 512 + 32 * i + 32) →
        (fat32_touch ctx d name).2.byte o % 256 = d.byte o % 256) ∧
      (∀ c, fat32_get_fat_entry ctx (fat32_touch ctx d name).2 c
        = fat32_get_fat_entry ctx d c) := by
  obtain ⟨i, hok, hfs, hge2, heq⟩ := touch_success_shape hs
  have hW := writeCluster_frame (d := d)
    (writeEntryBytes (clusterView ctx d ctx.current_cluster)
      i (fat32_format_name name) 32 0) hcc
  have hi : i < 128 := (findFreeSlot_lt 128 0 _ i hfs).2
  obtain ⟨hcc2, hccb⟩ := hcc
  refine ⟨i, hfs, ?_, ?_, ?_, ?_, ?_⟩
  · intro j hj
    rw [heq, hW.1, if_pos (by omega),
      show (ctx.data_start + (ctx.current_cluster - 2) * 8) * 512 + 32 * i + j -
        (ctx.data_start + (ctx.current_cluster - 2) * 8) * 512 = 32 * i + j by omega,
      writeEntryBytes_at (by omega), if_pos hj]
  · rw [heq, hW.1, if_pos (by omega),
      show (ctx.data_start + (ctx.current_cluster - 2) * 8) * 512 + 32 * i + 11 -
        (ctx.data_start + (ctx.current_cluster - 2) * 8) * 512 = 32 * i + 11 by omega,
      writeEntryBytes_at (by omega)]
    norm_num
  · intro j h12 h32
    rw [heq, hW.1, if_pos (by omega),
      show (ctx.data_start + (ctx.current_cluster - 2) * 8) * 512 + 32 * i + j -
        (ctx.data_start + (ctx.current_cluster - 2) * 8) * 512 = 32 * i + j by omega,
      writeEntryBytes_at (by omega)]
    split_ifs <;> omega
  · intro o ho
    rw [heq, hW.1]
    by_cases hin : (ctx.data_start + (ctx.current_cluster - 2) * 8) * 512 ≤ o ∧
        o < (ctx.data_start + (ctx.current_cluster - 2) * 8) * 512 + 4096
    · rw [if_pos hin,
        writeEntryBytes_other (by omega),
        clusterView_eq ⟨hcc2, hccb⟩ (show o - (ctx.data_start +
          (ctx.current_cluster - 2) * 8) * 512 < 4096 by omega),
        show (ctx.data_start + (ctx.current_cluster - 2) * 8) * 512 +
          (o - (ctx.data_start + (ctx.current_cluster - 2) * 8) * 512) = o by omega]
      omega
    · rw [if_neg hin]
  · intro c
    rw [heq]
    by_cases hge : ctx.total_clusters ≤ c
    · rw [get_fat_entry_oob hge, get_fat_entry_oob hge]
    · have hc : c < ctx.total_clusters := by omega
      obtain ⟨hA0, hA1, hP0, hP1, hoff, hdiv, hbound, hfs1⟩ := fat_layout hg hc
      have hff := hg.fat_fit
      have hfb := hg.fat_before_data
      have hbadeq : (writeSectorsUp (clusterSector ctx ctx.current_cluster)
            (writeEntryBytes (clusterView ctx d ctx.current_cluster) i
              (fat32_format_name name) 32 0) 0 8 d).bad
            (w32 (fatSector ctx 0 c * 512))
          = d.bad (w32 (fatSector ctx 0 c * 512)) := by
        rw [hP0]
        exact hW.2 _ (fun k hk => by omega)
      cases hbad : d.bad (w32 (fatSector ctx 0 c * 512)) with
      | true =>
          rw [get_fat_entry_badRead hc (by rw [hbadeq]; exact hbad),
            get_fat_entry_badRead hc hbad]
      | false =>
          rw [get_fat_entry_ok hc (by rw [hbadeq]; exact hbad),
            get_fat_entry_ok hc hbad]
          have hslot : fatSlot ctx (writeSectorsUp (clusterSector ctx ctx.current_cluster)
              (writeEntryBytes (clusterView ctx d ctx.current_cluster) i
                (fat32_format_name name) 32 0) 0 8 d) 0 c = fatSlot ctx d 0 c := by
            unfold fatSlot
            apply u32le_congr
            intro j hj
            simp only [Nat.zero_add]
            rw [hW.1, if_neg (by rw [hA0]; omega)]
          rw [hslot]

/-- Witness for C7: `touch ttt` on the zero disk writes entry 0 of the root
cluster and nothing else. -/
theorem touch_frame_witness :
    GoodGeom ctxFmt ∧ ClusterInRange ctxFmt ctxFmt.current_cluster ∧
      (fat32_touch ctxFmt dzero [116, 116, 116]).1 = 0 ∧
      (∃ i, findFreeSlotFrom (clusterView ctxFmt dzero ctxFmt.current_cluster) 0 128
          = some i ∧
        (∀ j, j < 11 →
          (fat32_touch ctxFmt dzero [116, 116, 116]).2.byte
              ((ctxFmt.data_start + (ctxFmt.current_cluster - 2) * 8) * 512 + 32 * i + j)
            = (fat32_format_name [116, 116, 116]).getD j 0 % 256) ∧
        (fat32_touch ctxFmt dzero [116, 116, 116]).2.byte
            ((ctxFmt.data_start + (ctxFmt.current_cluster - 2) * 8) * 512 + 32 * i + 11)
          = 32 ∧
        (∀ j, 12 ≤ j → j < 32 →
          (fat32_touch ctxFmt dzero [116, 116, 116]).2.byte
              ((ctxFmt.data_start + (ctxFmt.current_cluster - 2) * 8) * 512 + 32 * i + j)
            = 0) ∧
        (∀ o, ¬ ((ctxFmt.data_start + (ctxFmt.current_cluster - 2) * 8) * 512 + 32 * i ≤ o ∧
              o < (ctxFmt.data_start + (ctxFmt.current_cluster - 2) * 8) * 512 + 32 * i + 32) →
          (fat32_touch ctxFmt dzero [116, 116, 116]).2.byte o % 256 = dzero.byte o % 256) ∧
        (∀ c, fat32_get_fat_entry ctxFmt (fat32_touch ctxFmt dzero [116, 116, 116]).2 c
          = fat32_get_fat_entry ctxFmt dzero c)) :=
  have hg : GoodGeom ctxFmt := by constructor <;> decide
  have hcc : ClusterInRange ctxFmt ctxFmt.current_cluster := by constructor <;> decide
  have hs : (fat32_touch ctxFmt dzero [116, 116, 116]).1 = 0 := by decide
  ⟨hg, hcc, hs, touch_frame ctxFmt dzero [116, 116, 116] hg hcc hs⟩

/-! ## Unfolding `fat32_format` -/

lemma set_fat_entry_of_ok {ctx : Fat32Context} {d : Disk} {c v : Nat}
    (hc : c < ctx.total_clusters)
    (hb0 : d.bad (w32 (fatSector ctx 0 c * 512)) = false)
    (hb1 : (fatWrite1 ctx d c v).bad (w32 (fatSector ctx 1 c * 512)) = false) :
    fat32_set_fat_entry ctx d c v = (0, fatWrite2 ctx d c v) := by
  unfold fat32_set_fat_entry
  rw [if_neg (by omega), read_sector_of_ok hb0]
  simp only []
  unfold fatWrite1 at hb1
  rw [read_sector_of_ok hb1]
  rfl

lemma format_disk4_bad32 (d : Disk) : (fat32_format_disk4 d).bad 16384 = false := by
  unfold fat32_format_disk4
  apply zeroSectors_bad_false
  apply zeroSectors_bad_false
  apply write_sector_bad_false
  rw [write_sector_bad, if_pos (by decide)]

lemma format_disk4_bad288 (d : Disk) : (fat32_format_disk4 d).bad 147456 = false := by
  unfold fat32_format_disk4
  apply zeroSectors_bad_false
  apply zeroSectors_bad_false
  rw [write_sector_bad, if_pos (by decide)]

lemma format_tc : (fat32_format_ctx ctxFmt).total_clusters = 5052 := rfl

set_option maxRecDepth 4000 in
lemma format_unfold (ctx : Fat32Context) (d : Disk) :
    fat32_format ctx d
      = (0, fat32_format_ctx ctx,
          (fat32_set_fat_entry (fat32_format_ctx ctx)
            (writeSectorsUp 544 (newDirCluster 2 0) 0 8 (fat32_format_disk4 d)) 2
            268435455).2) := by
  have hw : fat32_write_cluster (fat32_format_ctx ctx) (fat32_format_disk4 d) 2
      (newDirCluster 2 0)
      = (0, writeSectorsUp 544 (newDirCluster 2 0) 0 8 (fat32_format_disk4 d)) := by
    unfold fat32_write_cluster
    rw [if_neg (by omega)]
    rw [show clusterSector (fat32_format_ctx ctx) 2 = 544 from rfl]
  have hb0 : (writeSectorsUp 544 (newDirCluster 2 0) 0 8 (fat32_format_disk4 d)).bad
      (w32 (fatSector (fat32_format_ctx ctx) 0 2 * 512)) = false := by
    rw [show w32 (fatSector (fat32_format_ctx ctx) 0 2 * 512) = 16384 by
      norm_num [fatSector, fat32_format_ctx, w32]]
    exact writeSectorsUp_bad_false _ _ _ _ _ _ (format_disk4_bad32 d)
  have hb1 : (fatWrite1 (fat32_format_ctx ctx)
        (writeSectorsUp 544 (newDirCluster 2 0) 0 8 (fat32_format_disk4 d)) 2
        268435455).bad
      (w32 (fatSector (fat32_format_ctx ctx) 1 2 * 512)) = false := by
    rw [show w32 (fatSector (fat32_format_ctx ctx) 1 2 * 512) = 147456 by
      norm_num [fatSector, fat32_format_ctx, w32]]
    unfold fatWrite1
    apply write_sector_bad_false
    exact writeSectorsUp_bad_false _ _ _ _ _ _ (format_disk4_bad288 d)
  have hset := set_fat_entry_of_ok
    (show (2 : Nat) < (fat32_format_ctx ctx).total_clusters from by norm_num [fat32_format_ctx])
    hb0 hb1
  simp only [fat32_format, hw, hset]
  norm_num

/-! ## Bytes of the freshly formatted FAT region -/

lemma fatFirstSector_hi {k : Nat} (hk : 8 ≤ k) : fatFirstSector k = 0 := by
  unfold fatFirstSector
  rw [setU32le_other _ _ _ _ (by refine ⟨?_, ?_, ?_, ?_⟩ <;> omega),
    setU32le_other _ _ _ _ (by refine ⟨?_, ?_, ?_, ?_⟩ <;> omega)]

lemma dRoot_low_byte (d : Disk) {o : Nat} (ho : o < 278528) :
    (writeSectorsUp 544 (newDirCluster 2 0) 0 8 (fat32_format_disk4 d)).byte o
      = (fat32_format_disk4 d).byte o := by
  rw [writeSectorsUp_byte _ _ 8 0 _ o (by omega), if_neg (by omega)]

lemma disk4_byte (d : Disk) (o : Nat) :
    (fat32_format_disk4 d).byte o =
      if 16896 ≤ o ∧ o < 147456 then 0
      else if 147968 ≤ o ∧ o < 278528 then 0
      else if 147456 ≤ o ∧ o < 147968 then fatFirstSector (o - 147456) % 256
      else if 16384 ≤ o ∧ o < 16896 then fatFirstSector (o - 16384) % 256
      else if o < 512 then bootSectorBytes o % 256
      else d.byte o := by
  unfold fat32_format_disk4
  rw [zeroSectors_byte (32 + 1 * 256) (256 - 1) 1 _ o (by norm_num)]
  rw [zeroSectors_byte (32 + 0 * 256) (256 - 1) 1 _ o (by norm_num)]
  rw [write_sector_byte, write_sector_byte, write_sector_byte]
  norm_num [w32]
  split_ifs <;> rfl

lemma dRoot_fat_entry_byte (d : Disk) {c j : Nat} (hc2 : 2 ≤ c) (hc : c < 5052)
    (hj : j < 4) {copy : Nat} (hcopy : copy < 2) :
    (writeSectorsUp 544 (newDirCluster 2 0) 0 8 (fat32_format_disk4 d)).byte
        (16384 + copy * 131072 + (c * 4 + j))
      = if c * 4 + j < 512 then fatFirstSector (c * 4 + j) % 256 else 0 := by
  rw [dRoot_low_byte d (by omega), disk4_byte]
  interval_cases copy
  · rw [show 16384 + 0 * 131072 + (c * 4 + j) - 16384 = c * 4 + j by omega]
    split_ifs <;> omega
  · rw [show 16384 + 1 * 131072 + (c * 4 + j) - 147456 = c * 4 + j by omega]
    split_ifs <;> omega

lemma format_ctx_goodGeom (ctx : Fat32Context) : GoodGeom (fat32_format_ctx ctx) := by
  constructor <;> norm_num [fat32_format_ctx]

lemma dRoot_fatSlot_two (ctx : Fat32Context) (d : Disk) {copy : Nat} (hcopy : copy < 2) :
    fatSlot (fat32_format_ctx ctx)
      (writeSectorsUp 544 (newDirCluster 2 0) 0 8 (fat32_format_disk4 d)) copy 2 = 0 := by
  have haddr : fatEntryAddr (fat32_format_ctx ctx) copy 2 = 16384 + copy * 131072 + 8 := by
    interval_cases copy <;>
      norm_num [fatEntryAddr, fatSector, fatOffset, fat32_format_ctx, w32]
  have hb : ∀ j, j < 4 →
      (writeSectorsUp 544 (newDirCluster 2 0) 0 8 (fat32_format_disk4 d)).byte
        (16384 + copy * 131072 + 8 + j) = 0 := by
    intro j hj
    rw [show 16384 + copy * 131072 + 8 + j = 16384 + copy * 131072 + (2 * 4 + j) by omega]
    rw [dRoot_fat_entry_byte d (by omega) (by omega) hj hcopy]
    rw [if_pos (by omega), fatFirstSector_hi (by omega)]
  have h0 := hb 0 (by omega)
  have h1 := hb 1 (by omega)
  have h2 := hb 2 (by omega)
  have h3 := hb 3 (by omega)
  simp only [Nat.add_zero] at h0
  unfold fatSlot u32le
  simp only [Nat.zero_add, Nat.add_zero]
  rw [haddr, h0, h1, h2, h3]

/-! ## Preservation of the mirroring invariant -/

lemma set_preserves_agree {ctx : Fat32Context} {d : Disk} {c v : Nat}
    (hg : GoodGeom ctx) (ha : FatCopiesAgree ctx d)
    (hs : (fat32_set_fat_entry ctx d c v).1 = 0) :
    FatCopiesAgree ctx (fat32_set_fat_entry ctx d c v).2 := by
  have heff := set_fat_entry_effect hg hs
  obtain ⟨hc, -, -, -⟩ := set_fat_entry_success hs
  obtain ⟨hA0c, hA1c, -, -, -, hdivc, hboundc, hfsc⟩ := fat_layout hg hc
  have hff := hg.fat_fit
  have hfb := hg.fat_before_data
  intro c' hc' h2' j hj
  obtain ⟨hA0', hA1', -, -, -, -, -, -⟩ := fat_layout hg hc'
  rw [heff, heff]
  by_cases hcc : c' = c
  · subst hcc
    have hslots : fatSlot ctx d 0 c' = fatSlot ctx d 1 c' := by
      have g0 := ha c' hc' h2' 0 (by omega)
      have g1 := ha c' hc' h2' 1 (by omega)
      have g2 := ha c' hc' h2' 2 (by omega)
      have g3 := ha c' hc' h2' 3 (by omega)
      simp only [Nat.add_zero] at g0
      unfold fatSlot u32le
      simp only [Nat.zero_add, Nat.add_zero]
      omega
    rw [if_pos (by omega), if_neg (by omega), if_pos (by omega), hslots,
      show fatEntryAddr ctx 0 c' + j - fatEntryAddr ctx 0 c' = j by omega,
      show fatEntryAddr ctx 1 c' + j - fatEntryAddr ctx 1 c' = j by omega]
  · rw [if_neg (by omega), if_neg (by omega), if_neg (by omega), if_neg (by omega)]
    exact ha c' hc' h2' j hj

lemma data_write_preserves_agree {ctx : Fat32Context} (d : Disk) {c : Nat}
    (buf : Nat → Nat) (hg : GoodGeom ctx) (h : ClusterInRange ctx c)
    (ha : FatCopiesAgree ctx d) :
    FatCopiesAgree ctx (writeSectorsUp (clusterSector ctx c) buf 0 8 d) := by
  intro c' hc' h2' j hj
  obtain ⟨hA0', hA1', -, -, -, hdiv', -, hfs'⟩ := fat_layout hg hc'
  have hff := hg.fat_fit
  have hfb := hg.fat_before_data
  obtain ⟨h2c, hbc⟩ := h
  rw [(writeCluster_frame (d := d) buf ⟨h2c, hbc⟩).1, if_neg (by omega),
    (writeCluster_frame (d := d) buf ⟨h2c, hbc⟩).1, if_neg (by omega)]
  exact ha c' hc' h2' j hj

lemma mkdir_success_shape {ctx : Fat32Context} {d : Disk} {name : List Nat}
    (hs : (fat32_mkdir ctx d name).1 = 0) :
    ∃ i, readClusterOk ctx d ctx.current_cluster = true ∧
      findFreeSlotFrom (clusterView ctx d ctx.current_cluster) 0 128 = some i ∧
      fat32_find_free_cluster ctx d ≠ 0 ∧
      ¬ ctx.current_cluster < 2 ∧ ¬ fat32_find_free_cluster ctx d < 2 ∧
      (fat32_set_fat_entry ctx
        (writeSectorsUp (clusterSector ctx (fat32_find_free_cluster ctx d))
          (newDirCluster (fat32_find_free_cluster ctx d) ctx.current_cluster) 0 8 d)
        (fat32_find_free_cluster ctx d) 268435455).1 = 0 ∧
      (fat32_mkdir ctx d name).2
        = writeSectorsUp (clusterSector ctx ctx.current_cluster)
            (writeEntryBytes (clusterView ctx d ctx.current_cluster) i
              (fat32_format_name name) 16 (fat32_find_free_cluster ctx d)) 0 8
            ((fat32_set_fat_entry ctx
              (writeSectorsUp (clusterSector ctx (fat32_find_free_cluster ctx d))
                (newDirCluster (fat32_find_free_cluster ctx d) ctx.current_cluster) 0 8 d)
              (fat32_find_free_cluster ctx d) 268435455).2) := by
  unfold fat32_mkdir at hs ⊢
  by_cases hnil : name = []
  · rw [if_pos hnil] at hs
    simp at hs
  · rw [if_neg hnil] at hs ⊢
    cases hok : readClusterOk ctx d ctx.current_cluster with
    | false =>
        rw [hok] at hs
        simp at hs
    | true =>
        rw [hok] at hs
        simp only [Bool.not_true, Bool.false_eq_true, if_false] at hs ⊢
        by_cases hex : nameExistsFrom (clusterView ctx d ctx.current_cluster)
            (fat32_format_name name) 0 128 = true
        · rw [if_pos hex] at hs
          simp at hs
        · rw [if_neg hex] at hs ⊢
          cases hfs : findFreeSlotFrom (clusterView ctx d ctx.current_cluster) 0 128 with
          | none =>
              rw [hfs] at hs
              simp at hs
          | some i =>
              rw [hfs] at hs
              simp only [] at hs ⊢
              by_cases hnc : fat32_find_free_cluster ctx d = 0
              · rw [if_pos hnc] at hs
                simp at hs
              · rw [if_neg hnc] at hs ⊢
                unfold fat32_write_cluster at hs ⊢
                by_cases hlt : fat32_find_free_cluster ctx d < 2
                · rw [if_pos hlt] at hs
                  simp at hs
                · rw [if_neg hlt] at hs ⊢
                  simp only [] at hs ⊢
                  rw [if_neg (show ¬ ((0 : Int) ≠ 0) by norm_num)] at hs ⊢
                  by_cases hst : (fat32_set_fat_entry ctx
                      (writeSectorsUp (clusterSector ctx (fat32_find_free_cluster ctx d))
                        (newDirCluster (fat32_find_free_cluster ctx d)
                          ctx.current_cluster) 0 8 d)
                      (fat32_find_free_cluster ctx d) 268435455).1 = 0
                  · rw [if_neg (not_ne_iff.mpr hst)] at hs ⊢
                    by_cases hcclt : ctx.current_cluster < 2
                    · rw [if_pos hcclt] at hs
                      simp at hs
                    · rw [if_neg hcclt] at hs ⊢
                      simp only [] at hs ⊢
                      rw [if_neg (show ¬ ((0 : Int) ≠ 0) by norm_num)] at hs ⊢
                      exact ⟨i, by trivial, by trivial, hnc, hcclt, hlt, hst, by trivial⟩
                  · rw [if_pos hst] at hs
                    simp at hs

lemma format_set_ok (ctx : Fat32Context) (d : Disk) :
    (fat32_set_fat_entry (fat32_format_ctx ctx)
      (writeSectorsUp 544 (newDirCluster 2 0) 0 8 (fat32_format_disk4 d)) 2
      268435455).1 = 0 := by
  have hb0 : (writeSectorsUp 544 (newDirCluster 2 0) 0 8 (fat32_format_disk4 d)).bad
      (w32 (fatSector (fat32_format_ctx ctx) 0 2 * 512)) = false := by
    rw [show w32 (fatSector (fat32_format_ctx ctx) 0 2 * 512) = 16384 by
      norm_num [fatSector, fat32_format_ctx, w32]]
    exact writeSectorsUp_bad_false _ _ _ _ _ _ (format_disk4_bad32 d)
  have hb1 : (fatWrite1 (fat32_format_ctx ctx)
        (writeSectorsUp 544 (newDirCluster 2 0) 0 8 (fat32_format_disk4 d)) 2
        268435455).bad
      (w32 (fatSector (fat32_format_ctx ctx) 1 2 * 512)) = false := by
    rw [show w32 (fatSector (fat32_format_ctx ctx) 1 2 * 512) = 147456 by
      norm_num [fatSector, fat32_format_ctx, w32]]
    unfold fatWrite1
    apply write_sector_bad_false
    exact writeSectorsUp_bad_false _ _ _ _ _ _ (format_disk4_bad288 d)
  rw [set_fat_entry_of_ok
    (show (2 : Nat) < (fat32_format_ctx ctx).total_clusters from by
      norm_num [fat32_format_ctx]) hb0 hb1]

lemma dRoot_agree (ctx : Fat32Context) (d : Disk) :
    FatCopiesAgree (fat32_format_ctx ctx)
      (writeSectorsUp 544 (newDirCluster 2 0) 0 8 (fat32_format_disk4 d)) := by
  intro c hc h2 j hj
  have hg := format_ctx_goodGeom ctx
  obtain ⟨hA0, hA1, -, -, -, -, -, -⟩ := fat_layout hg hc
  have hc' : c < 5052 := hc
  rw [hA0, hA1]
  rw [show (fat32_format_ctx ctx).fat_start * 512 + c * 4 + j
      = 16384 + 0 * 131072 + (c * 4 + j) from by
    simp only [fat32_format_ctx]; omega]
  rw [show ((fat32_format_ctx ctx).fat_start + (fat32_format_ctx ctx).fat_size) * 512
        + c * 4 + j
      = 16384 + 1 * 131072 + (c * 4 + j) from by
    simp only [fat32_format_ctx]; omega]
  rw [dRoot_fat_entry_byte d h2 hc' hj (show (0 : Nat) < 2 by omega),
    dRoot_fat_entry_byte d h2 hc' hj (show (1 : Nat) < 2 by omega)]

/-- A small valid geometry (3 clusters) used to exercise the invariant
theorems on concrete data. -/
def ctxTiny : Fat32Context := ⟨32, 544, 256, 3, [47], 2⟩

instance instDecFatCopiesAgree (ctx : Fat32Context) (d : Disk) :
    Decidable (FatCopiesAgree ctx d) := by
  unfold FatCopiesAgree
  infer_instance

set_option maxRecDepth 4000 in
/-- C1: the FAT mirroring invariant `FatCopiesAgree` (copies 0 and 1 hold
byte-equal entries for every cluster in `[2, total_clusters)`) is established
by `fat32_format` and preserved by every successful `fat32_set_fat_entry`,
`fat32_mkdir` and `fat32_touch`: every FAT-entry write updates both copies. -/
theorem fat_mirroring_invariant :
    (∀ (ctx : Fat32Context) (d : Disk) (r : Int) (ctx' : Fat32Context) (d' : Disk),
      fat32_format ctx d = (r, ctx', d') → FatCopiesAgree ctx' d') ∧
    (∀ (ctx : Fat32Context) (d : Disk) (c v : Nat), GoodGeom ctx →
      FatCopiesAgree ctx d → (fat32_set_fat_entry ctx d c v).1 = 0 →
      FatCopiesAgree ctx (fat32_set_fat_entry ctx d c v).2) ∧
    (∀ (ctx : Fat32Context) (d : Disk) (name : List Nat), GoodGeom ctx →
      ctx.current_cluster < ctx.total_clusters →
      FatCopiesAgree ctx d → (fat32_mkdir ctx d name).1 = 0 →
      FatCopiesAgree ctx (fat32_mkdir ctx d name).2) ∧
    (∀ (ctx : Fat32Context) (d : Disk) (name : List Nat), GoodGeom ctx →
      ctx.current_cluster < ctx.total_clusters →
      FatCopiesAgree ctx d → (fat32_touch ctx d name).1 = 0 →
      FatCopiesAgree ctx (fat32_touch ctx d name).2) := by
  refine ⟨?_, ?_, ?_, ?_⟩
  · intro ctx d r ctx' d' heq
    rw [format_unfold] at heq
    injection heq with h1 h23
    injection h23 with h2 h3
    subst h2
    subst h3
    exact set_preserves_agree (format_ctx_goodGeom ctx) (dRoot_agree ctx d)
      (format_set_ok ctx d)
  · intro ctx d c v hg ha hs
    exact set_preserves_agree hg ha hs
  · intro ctx d name hg hcc ha hs
    obtain ⟨i, hok, hfs, hnc, hcclt, hnclt, hset, heq⟩ := mkdir_success_shape hs
    obtain ⟨h2nc, hnctot, -, -⟩ := (find_free_cluster_correct ctx d).2 hnc
    have hdb := hg.data_bound
    have hcr_nc : ClusterInRange ctx (fat32_find_free_cluster ctx d) :=
      ⟨by omega, by omega⟩
    have hcr_cc : ClusterInRange ctx ctx.current_cluster := ⟨by omega, by omega⟩
    rw [heq]
    exact data_write_preserves_agree _ _ hg hcr_cc
      (set_preserves_agree hg (data_write_preserves_agree d _ hg hcr_nc ha) hset)
  · intro ctx d name hg hcc ha hs
    obtain ⟨i, hok, hfs, hcclt, heq⟩ := touch_success_shape hs
    have hdb := hg.data_bound
    have hcr_cc : ClusterInRange ctx ctx.current_cluster := ⟨by omega, by omega⟩
    rw [heq]
    exact data_write_preserves_agree d _ hg hcr_cc ha

/-- Concrete instance of the mirroring invariant: on the 3-cluster geometry
`ctxTiny` over the all-zero disk, `fat32_set_fat_entry` of value 7 at cluster 2
succeeds and the resulting disk still satisfies `FatCopiesAgree`. -/
theorem fat_mirroring_invariant_witness :
    GoodGeom ctxTiny ∧ FatCopiesAgree ctxTiny dzero ∧
    (fat32_set_fat_entry ctxTiny dzero 2 7).1 = 0 ∧
    FatCopiesAgree ctxTiny (fat32_set_fat_entry ctxTiny dzero 2 7).2 :=
  have hg : GoodGeom ctxTiny := by constructor <;> decide
  have ha : FatCopiesAgree ctxTiny dzero := by decide
  have hs : (fat32_set_fat_entry ctxTiny dzero 2 7).1 = 0 := by decide
  ⟨hg, ha, hs, fat_mirroring_invariant.2.1 ctxTiny dzero 2 7 hg ha hs⟩

lemma liveIdx_congr (b b' : Nat → Nat) : ∀ (n i : Nat),
    (∀ k, k < 4096 → b k = b' k) → 32 * i + 32 * n ≤ 4096 →
    liveIdx b i n = liveIdx b' i n := by
  intro n
  induction n with
  | zero => intro i _ _; rfl
  | succ n ih =>
      intro i h hb
      simp only [liveIdx]
      rw [h (32 * i) (by omega)]
      split_ifs
      · rfl
      · exact ih (i + 1) h (by omega)
      · rw [ih (i + 1) h (by omega)]

lemma entryName_congr (b b' : Nat → Nat) (i : Nat)
    (h : ∀ k, k < 4096 → b k = b' k) (hi : i < 128) :
    entryName b i = entryName b' i := by
  unfold entryName
  apply List.map_congr_left
  intro j hj
  rw [List.mem_range] at hj
  exact h (32 * i + j) (by omega)

lemma entryCluster_congr (b b' : Nat → Nat) (i : Nat)
    (h : ∀ k, k < 4096 → b k = b' k) (hi : i < 127) :
    entryCluster b i = entryCluster b' i := by
  unfold entryCluster u16le
  rw [h (32 * i + 20) (by omega), h (32 * i + 20 + 1) (by omega),
    h (32 * i + 26) (by omega), h (32 * i + 26 + 1) (by omega)]

lemma format_root_view (ctx : Fat32Context) (d : Disk) {j : Nat} (hj : j < 4096) :
    clusterView (fat32_format_ctx ctx)
      ((fat32_set_fat_entry (fat32_format_ctx ctx)
        (writeSectorsUp 544 (newDirCluster 2 0) 0 8 (fat32_format_disk4 d)) 2
        268435455).2) 2 j = newDirCluster 2 0 j % 256 := by
  have hg := format_ctx_goodGeom ctx
  have hs := format_set_ok ctx d
  have hcr : ClusterInRange (fat32_format_ctx ctx) 2 :=
    ⟨by omega, by simp only [fat32_format_ctx]; omega⟩
  have hA0 : fatEntryAddr (fat32_format_ctx ctx) 0 2 = 16392 := by
    norm_num [fatEntryAddr, fatSector, fatOffset, fat32_format_ctx, w32]
  have hA1 : fatEntryAddr (fat32_format_ctx ctx) 1 2 = 147464 := by
    norm_num [fatEntryAddr, fatSector, fatOffset, fat32_format_ctx, w32]
  rw [clusterView_eq hcr hj]
  rw [show ((fat32_format_ctx ctx).data_start + (2 - 2) * 8) * 512 + j = 278528 + j from by
      simp only [fat32_format_ctx]
      try omega]
  rw [set_fat_entry_effect hg hs (278528 + j)]
  rw [hA0, hA1]
  rw [if_neg (by omega), if_neg (by omega)]
  rw [writeSectorsUp_byte 544 (newDirCluster 2 0) 8 0 _ (278528 + j) (by omega)]
  rw [if_pos (by omega)]
  rw [show 278528 + j - 544 * 512 = j from by omega]
  omega

set_option maxRecDepth 4000 in
/-- C3: after a successful `fat32_format` the root cluster (cluster 2) holds
exactly two live entries, in order: entry 0 named `"."` pointing at cluster 2
and entry 1 named `".."` pointing at cluster 0, both with the DIRECTORY
attribute (0x10), followed by a 0x00 end-of-directory byte; and the FAT entry
of cluster 2 is the EOC sentinel `0x0FFFFFFF` in both copies. -/
theorem format_root_directory (ctx : Fat32Context) (d : Disk) (r : Int)
    (ctx' : Fat32Context) (d' : Disk)
    (heq : fat32_format ctx d = (r, ctx', d')) :
    readClusterOk ctx' d' 2 = true ∧
    scanEntries (clusterView ctx' d' 2) = [0, 1] ∧
    entryName (clusterView ctx' d' 2) 0 = 46 :: List.replicate 10 32 ∧
    clusterView ctx' d' 2 11 = 16 ∧
    entryCluster (clusterView ctx' d' 2) 0 = 2 ∧
    entryName (clusterView ctx' d' 2) 1 = 46 :: 46 :: List.replicate 9 32 ∧
    clusterView ctx' d' 2 43 = 16 ∧
    entryCluster (clusterView ctx' d' 2) 1 = 0 ∧
    clusterView ctx' d' 2 64 = 0 ∧
    fat32_get_fat_entry ctx' d' 2 = 268435455 ∧
    (∀ copy, copy < 2 → fatSlot ctx' d' copy 2 = 268435455) := by
  rw [format_unfold] at heq
  injection heq with h1 h23
  injection h23 with h2 h3
  subst h2
  subst h3
  have hg := format_ctx_goodGeom ctx
  have hs := format_set_ok ctx d
  have hv : ∀ k, k < 4096 → clusterView (fat32_format_ctx ctx)
      ((fat32_set_fat_entry (fat32_format_ctx ctx)
        (writeSectorsUp 544 (newDirCluster 2 0) 0 8 (fat32_format_disk4 d)) 2
        268435455).2) 2 k = newDirCluster 2 0 k % 256 :=
    fun k hk => format_root_view ctx d hk
  refine ⟨?_, ?_, ?_, ?_, ?_, ?_, ?_, ?_, ?_, ?_, ?_⟩
  · have hbad : ∀ i, i < 8 →
        ((fat32_set_fat_entry (fat32_format_ctx ctx)
          (writeSectorsUp 544 (newDirCluster 2 0) 0 8 (fat32_format_disk4 d)) 2
          268435455).2).bad
          (w32 (w32 (clusterSector (fat32_format_ctx ctx) 2 + i) * 512)) = false := by
      intro i hi
      rw [show clusterSector (fat32_format_ctx ctx) 2 = 544 from rfl]
      rw [show w32 (w32 (544 + i) * 512) = (544 + i) * 512 from by unfold w32; omega]
      exact set_fat_entry_bad_false hs
        (writeSectorsUp_bad_cleared 544 (newDirCluster 2 0) 8 0 (fat32_format_disk4 d) i
          (by omega) (by omega) (by omega))
    unfold readClusterOk
    rw [Bool.and_eq_true, List.all_eq_true]
    refine ⟨by decide, fun i hmem => ?_⟩
    rw [List.mem_range] at hmem
    try simp only []
    rw [hbad i hmem]
    rfl
  · exact (liveIdx_congr _ _ 128 0 hv (by omega)).trans (by decide)
  · exact (entryName_congr _ _ 0 hv (by omega)).trans (by decide)
  · exact (hv 11 (by omega)).trans (by decide)
  · exact (entryCluster_congr _ _ 0 hv (by omega)).trans (by decide)
  · exact (entryName_congr _ _ 1 hv (by omega)).trans (by decide)
  · exact (hv 43 (by omega)).trans (by decide)
  · exact (entryCluster_congr _ _ 1 hv (by omega)).trans (by decide)
  · exact (hv 64 (by omega)).trans (by decide)
  · rw [get_fat_entry_ok (show (2 : Nat) < (fat32_format_ctx ctx).total_clusters from by
        norm_num [fat32_format_ctx]) (set_fat_entry_bad_cleared0 hs)]
    have h := fatSlot_after_set hg hs (show (0 : Nat) < 2 by omega)
    rw [dRoot_fatSlot_two ctx d (show (0 : Nat) < 2 by omega)] at h
    rw [h]
    try norm_num
  · intro copy hcopy
    have h := fatSlot_after_set hg hs hcopy
    rw [dRoot_fatSlot_two ctx d hcopy] at h
    norm_num at h
    exact h

/-- Concrete instance of the root-directory shape: formatting the all-zero
disk leaves exactly the live entries 0 and 1 in the root cluster. -/
theorem format_root_directory_witness :
    scanEntries (clusterView (fat32_format_ctx ctxFmt)
      ((fat32_set_fat_entry (fat32_format_ctx ctxFmt)
        (writeSectorsUp 544 (newDirCluster 2 0) 0 8 (fat32_format_disk4 dzero)) 2
        268435455).2) 2) = [0, 1] :=
  (format_root_directory ctxFmt dzero 0 (fat32_format_ctx ctxFmt)
    ((fat32_set_fat_entry (fat32_format_ctx ctxFmt)
      (writeSectorsUp 544 (newDirCluster 2 0) 0 8 (fat32_format_disk4 dzero)) 2
      268435455).2) (format_unfold ctxFmt dzero)).2.1
